import Mathlib

/-!
Shallow embedding of the gb-rs Game Boy emulator core (src/src/app/gbemu/console.rs,
src/src/app/gbemu/ppu.rs, src/src/mappers/mbc1.rs, src/src/mappers/no_mbc.rs,
src/src/mappers/mapper.rs) together with proofs about the frozen specification claims.

Modelling conventions:
- Machine integers (u8 / u16) are Nat with explicit wrapping (mod 2^8 / mod 2^16) at
  every operation where the Rust release build wraps.  The emulator relies on wrapping
  semantics (for example, overflow of the accumulator is detected by comparing the
  wrapped result with the original), so release-mode two's-complement wrapping is the
  intended semantics.
- Fixed-size byte arrays are modelled as functions Nat -> Nat; a value loaded from such
  an array is reduced mod 256, expressing the u8 element type.
- Rust Vec is modelled as List; an out-of-bounds index (a panic at run time) is
  modelled by Option: functions that can panic return Option, and a panic is none.
- Explicit panics in the source are none as well.
- mpsc channels used by battery-backed saving are modelled as the list of messages
  sent so far.
-/

/-- Wrapping to 8 bits: models u8 arithmetic of the Rust release build. -/
def wrap8 (n : Nat) : Nat := n % 256

/-- Wrapping to 16 bits: models u16 arithmetic of the Rust release build. -/
def wrap16 (n : Nat) : Nat := n % 65536

/-- Wrapping 8-bit addition. -/
def add8 (x y : Nat) : Nat := (x + y) % 256

/-- Wrapping 8-bit subtraction (x - y as u8). -/
def sub8 (x y : Nat) : Nat := (x % 256 + 256 - y % 256) % 256

/-- Wrapping 16-bit subtraction (x - y as u16). -/
def sub16 (x y : Nat) : Nat := (x % 65536 + 65536 - y % 65536) % 65536

/-- Models u16::from_be_bytes([hi, lo]). -/
def u16be (hi lo : Nat) : Nat := wrap8 hi * 256 + wrap8 lo

/-- Point update of a byte-array-as-function: models array element assignment. -/
def updf (f : Nat → Nat) (i v : Nat) : Nat → Nat := fun j => if j = i then v else f j

/-! ## Cartridge mappers (src/src/mappers) -/

/-- NoMBC (src/src/mappers/no_mbc.rs): a flat 32KB ROM, optionally one RAM bank. -/
structure NoMBC where
  rom_bank : Nat → Nat
  ram_bank : Option (Nat → Nat)

/-- NoMBC::read.  The source first evaluates (and discards, because of a stray
semicolon) a RAM-bank load; that expression cannot panic, so it is dropped here.
Any address above 0x8000 panics explicitly; address 0x8000 itself overflows the
0x8000-byte ROM array, which is also a panic. -/
def NoMBC.read (m : NoMBC) (address : Nat) : Option Nat :=
  if address > 0x8000 then none
  else if address = 0x8000 then none
  else some (wrap8 (m.rom_bank address))

/-- NoMBC::write.  When a RAM bank is present the source writes into a temporary
copy returned by unwrap(), so the mapper itself is never changed; an index at or
above 0x2000 overflows that temporary array (a panic). -/
def NoMBC.write (m : NoMBC) (address _value : Nat) : Option NoMBC :=
  match m.ram_bank with
  | some _ => if address < 0x2000 then some m else none
  | none => some m

/-- translate_address (src/src/mappers/mbc1.rs): flat save-file offset of a RAM byte. -/
def translate_address (gb_address : Nat) (ram_bank_index : Nat) : Nat :=
  (gb_address - 0xA000) + ram_bank_index * 0x2000

/-- MBC1 (src/src/mappers/mbc1.rs).  save_sender models the Option of an mpsc
channel: some log is a live channel carrying the (value, offset) pairs sent so far. -/
structure MBC1 where
  rom_banks : List (Nat → Nat)
  aux_rom_bank_index : Nat
  ram_banks : Option (List (Nat → Nat))
  ram_bank_index : Nat
  has_battery : Bool
  save_sender : Option (List (Nat × Nat))
  ram_enabled : Bool

/-- MBC1::read. -/
def MBC1.read (m : MBC1) (address : Nat) : Option Nat :=
  if address ≤ 0x3FFF then
    (m.rom_banks.get? 0).map (fun bank => wrap8 (bank address))
  else if address ≤ 0x7FFF then
    (m.rom_banks.get? m.aux_rom_bank_index).map (fun bank => wrap8 (bank (address - 0x4000)))
  else if 0xA000 ≤ address ∧ address ≤ 0xBFFF then
    if m.ram_enabled then
      match m.ram_banks with
      | some banks => (banks.get? m.ram_bank_index).map (fun bank => wrap8 (bank (address - 0xA000)))
      | none => some 0xFF
    else some 0xFF
  else none

/-- MBC1::write.  In the ROM-bank-select range the source assigns index 1 for a
zero value but then unconditionally overwrites the index with temp_index; the
modulo is applied only when temp_index strictly exceeds the bank count, and a
modulo with a zero bank count is a division-by-zero panic. -/
def MBC1.write (m : MBC1) (address value : Nat) : Option MBC1 :=
  if address ≤ 0x1FFF then
    some {m with ram_enabled := value &&& 0xF = 0xA}
  else if address ≤ 0x3FFF then
    let temp_index := value &&& 0b11111
    let m1 := if temp_index = 0 then {m with aux_rom_bank_index := 1} else m
    if temp_index > m.rom_banks.length then
      if m.rom_banks.length = 0 then none
      else some {m1 with aux_rom_bank_index := temp_index % m.rom_banks.length}
    else some {m1 with aux_rom_bank_index := temp_index}
  else if address ≤ 0x5FFF then
    some {m with ram_bank_index := value &&& 0b11}
  else if address ≤ 0x7FFF then
    some m
  else if 0xA000 ≤ address ∧ address ≤ 0xBFFF then
    if m.ram_enabled then
      match m.ram_banks with
      | some banks =>
        match banks.get? m.ram_bank_index with
        | some bank =>
          let m2 := {m with ram_banks := some (banks.set m.ram_bank_index (updf bank (address - 0xA000) value))}
          match m.save_sender with
          | some log =>
            some {m2 with save_sender := some (log ++ [(value, translate_address address m.ram_bank_index)])}
          | none => some m2
        | none => none
      | none => some m
    else some m
  else none

/-- Mapper (src/src/mappers/mapper.rs): the mapper variants used by the console. -/
inductive Mapper where
  | noMBC (m : NoMBC)
  | mbc1 (m : MBC1)

/-- Mapper::read. -/
def Mapper.read : Mapper → Nat → Option Nat
  | .noMBC m, address => m.read address
  | .mbc1 m, address => m.read address

/-- Mapper::write. -/
def Mapper.write : Mapper → Nat → Nat → Option Mapper
  | .noMBC m, address, value => (m.write address value).map .noMBC
  | .mbc1 m, address, value => (m.write address value).map .mbc1

/-! ## Video controller (src/src/app/gbemu/ppu.rs) -/

/-- Pixel (src/src/app/gbemu/ppu.rs). -/
structure Pixel where
  color : Nat
  palette : Option Nat
  bg_priority : Option Bool
  tile : Option Nat

/-- PPU state (src/src/app/gbemu/ppu.rs).  Only the constructor and the bus-facing
methods (read, write, get_mode, dma_transfer) are embedded; the dot-level update
state machine is not needed by the claims but its state fields are kept. -/
structure PPU where
  video_ram : List (Nat → Nat)
  video_ram_index : Nat
  object_attribute_memory : Nat → Nat
  lcdc_7_lcd_enabled : Bool
  lcdc_6_window_tile_map_area : Nat
  lcdc_5_window_enabled : Bool
  lcdc_4_tile_data_area : Bool
  lcdc_3_bg_tile_map_area : Nat
  lcdc_2_obj_is_tall : Bool
  lcdc_1_obj_enable : Bool
  lcdc_0_bg_window_enable : Bool
  ppu_mode : Nat
  stat : Nat
  ly : Nat
  ly_compare : Nat
  scy : Nat
  scx : Nat
  wy : Nat
  wx : Nat
  obj_buffer : List Nat
  bg_fifo : List Pixel
  obj_fifo : List Pixel
  screen : Nat → Nat → Pixel
  dot_counter : Nat
  mode_3_penalty : Nat
  bg_fetch_state : Nat
  obj_fetch_state : Nat
  fetched_obj_address : Nat
  lx : Nat
  w_ly : Nat
  w_lx : Nat
  ly_eq_wy : Bool
  is_window_fetching_mode : Bool

/-- PPU::new. -/
def PPU.new : PPU where
  video_ram := [fun _ => 0]
  video_ram_index := 0
  object_attribute_memory := fun _ => 0
  lcdc_7_lcd_enabled := true
  lcdc_6_window_tile_map_area := 0x9800 - 0x8000
  lcdc_5_window_enabled := false
  lcdc_4_tile_data_area := false
  lcdc_3_bg_tile_map_area := 0x9800 - 0x8000
  lcdc_2_obj_is_tall := false
  lcdc_1_obj_enable := false
  lcdc_0_bg_window_enable := true
  ppu_mode := 1
  stat := 0x85
  ly := 0
  ly_compare := 0
  scy := 0x00
  scx := 0x00
  wy := 0x00
  wx := 0x00
  obj_buffer := []
  bg_fifo := []
  obj_fifo := []
  screen := fun _ _ => { color := 0, palette := none, bg_priority := none, tile := none }
  dot_counter := 0
  mode_3_penalty := 0
  bg_fetch_state := 0
  obj_fetch_state := 7
  fetched_obj_address := 0
  lx := 0
  w_ly := 0
  w_lx := 0
  ly_eq_wy := false
  is_window_fetching_mode := false

/-- PPU::get_mode. -/
def PPU.get_mode (p : PPU) : Nat := p.ppu_mode

/-- PPU::read. -/
def PPU.read (p : PPU) (address : Nat) : Option Nat :=
  if 0x8000 ≤ address ∧ address ≤ 0x9FFF then
    (p.video_ram.get? p.video_ram_index).map (fun bank => wrap8 (bank (address - 0x8000)))
  else if 0xFE00 ≤ address ∧ address ≤ 0xFE9F then
    some (wrap8 (p.object_attribute_memory (address - 0xFE00)))
  else if 0xFF00 ≤ address ∧ address ≤ 0xFF7F then
    if address = 0xFF40 then
      some ((if p.lcdc_7_lcd_enabled then 128 else 0) |||
            (if p.lcdc_6_window_tile_map_area = 0x9C00 - 0x8000 then 64 else 0) |||
            (if p.lcdc_5_window_enabled then 32 else 0) |||
            (if p.lcdc_4_tile_data_area then 16 else 0) |||
            (if p.lcdc_3_bg_tile_map_area = 0x9C00 - 0x8000 then 8 else 0) |||
            (if p.lcdc_2_obj_is_tall then 4 else 0) |||
            (if p.lcdc_1_obj_enable then 2 else 0) |||
            (if p.lcdc_0_bg_window_enable then 1 else 0))
    else if address = 0xFF41 then some p.stat
    else if address = 0xFF42 then some p.scy
    else if address = 0xFF43 then some p.scx
    else if address = 0xFF44 then some p.ly
    else if address = 0xFF45 then some p.ly_compare
    else if address = 0xFF4A then some p.wy
    else if address = 0xFF4B then some p.wx
    else none
  else none

/-- PPU::write.  Video RAM writes are dropped during mode 3, OAM writes during
modes 2 and 3; LY is read-only; an unknown register, or an address outside the
handled ranges, panics. -/
def PPU.write (p : PPU) (address value : Nat) : Option PPU :=
  if 0x8000 ≤ address ∧ address ≤ 0x9FFF then
    if p.ppu_mode ≠ 3 then
      match p.video_ram.get? p.video_ram_index with
      | some bank =>
        some {p with video_ram := p.video_ram.set p.video_ram_index (updf bank (address - 0x8000) value)}
      | none => none
    else some p
  else if 0xFE00 ≤ address ∧ address ≤ 0xFE9F then
    if p.ppu_mode ≠ 2 ∧ p.ppu_mode ≠ 3 then
      some {p with object_attribute_memory := updf p.object_attribute_memory (address - 0xFE00) value}
    else some p
  else if 0xFF00 ≤ address ∧ address ≤ 0xFF7F then
    if address = 0xFF40 then
      let p := {p with
        lcdc_7_lcd_enabled := value &&& 128 > 0,
        lcdc_6_window_tile_map_area := if value &&& 64 > 0 then 0x9C00 - 0x8000 else 0x9800 - 0x8000,
        lcdc_5_window_enabled := value &&& 32 > 0,
        lcdc_4_tile_data_area := value &&& 16 > 0,
        lcdc_3_bg_tile_map_area := if value &&& 8 > 0 then 0x9C00 - 0x8000 else 0x9800 - 0x8000,
        lcdc_2_obj_is_tall := value &&& 4 > 0,
        lcdc_1_obj_enable := value &&& 2 > 0,
        lcdc_0_bg_window_enable := value &&& 1 > 0}
      if !p.lcdc_7_lcd_enabled then
        some {p with ly := 0, dot_counter := 0, ppu_mode := 0, stat := p.stat &&& 0xFC}
      else some p
    else if address = 0xFF41 then some {p with stat := value ||| 0x80}
    else if address = 0xFF42 then some {p with scy := value}
    else if address = 0xFF43 then some {p with scx := value}
    else if address = 0xFF44 then some p
    else if address = 0xFF45 then some {p with ly_compare := value}
    else if address = 0xFF4A then some {p with wy := value}
    else if address = 0xFF4B then some {p with wx := value}
    else none
  else none

/-- PPU::dma_transfer. -/
def PPU.dma_transfer (p : PPU) (value address : Nat) : PPU :=
  {p with object_attribute_memory := updf p.object_attribute_memory address value}

/-! ## Console / memory bus / CPU (src/src/app/gbemu/console.rs) -/

/-- IMEState (src/src/app/gbemu/console.rs). -/
inductive IMEState where
  | Enabled
  | Disabled
  | Pending
deriving DecidableEq

/-- Flag-register bit constants (src/src/app/gbemu/console.rs). -/
def Z_ZERO_FLAG : Nat := 128

/-- Subtraction flag bit. -/
def N_SUBTRACTION_FLAG : Nat := 64

/-- Half-carry flag bit. -/
def H_HALF_CARRY_FLAG : Nat := 32

/-- Carry flag bit. -/
def C_CARRY_FLAG : Nat := 16

/-- GBConsole (src/src/app/gbemu/console.rs). -/
structure GBConsole where
  a : Nat
  b : Nat
  c : Nat
  d : Nat
  e : Nat
  h : Nat
  l : Nat
  flags : Nat
  stack_pointer : Nat
  program_counter : Nat
  cartridge : Mapper
  working_ram : Nat → Nat
  aux_working_ram : List (Nat → Nat)
  aux_working_ram_index : Nat
  high_ram : Nat → Nat
  interrupt_master_enable_flag : IMEState
  interrupt_enable : Nat
  interrupt_flag : Nat
  serial_byte : Nat
  serial_control : Nat
  serial_counter : Nat
  timer_divider : Nat
  timer_counter : Nat
  timer_modulo : Nat
  timer_control : Nat
  timer_overflowed : Bool
  dmg_bg_pallette : Nat
  dmg_obj_pallette_0 : Nat
  dmg_obj_pallette_1 : Nat
  dma : Nat
  dma_counter : Nat
  is_halted : Bool
  ppu : PPU

/-- GBConsole::new, register-initialisation part (console.rs lines 86-120).  The
construction of the Mapper from the cartridge file (lines 67-84) is file I/O and
is abstracted by taking the prepared Mapper as the argument. -/
def GBConsole.new (cartridge : Mapper) : GBConsole where
  a := 0x01
  b := 0x00
  c := 0x13
  d := 0x00
  e := 0xD8
  h := 0x01
  l := 0x4D
  flags := 0b10000000
  stack_pointer := 0xFFFE
  program_counter := 0x0100
  cartridge := cartridge
  working_ram := fun _ => 0
  aux_working_ram := [fun _ => 0]
  aux_working_ram_index := 0
  high_ram := fun _ => 0
  interrupt_master_enable_flag := IMEState.Disabled
  interrupt_enable := 0x00
  interrupt_flag := 0xE1
  serial_byte := 0x00
  serial_control := 0x7E
  serial_counter := 0
  timer_divider := 0xAB <<< 6
  timer_counter := 0x00
  timer_modulo := 0x00
  timer_control := 0xF8
  timer_overflowed := false
  dmg_bg_pallette := 0xFC
  dmg_obj_pallette_0 := 0x00
  dmg_obj_pallette_1 := 0x00
  dma := 0xFF
  dma_counter := 0xA0 <<< 2
  is_halted := false
  ppu := PPU.new

/-- The I/O-register arm (0xFF00-0xFF7F) of GBConsole::read; unknown registers
print an error and read as 0. -/
def GBConsole.read_io (s : GBConsole) (address : Nat) : Option Nat :=
  if address = 0xFF00 then some 0
  else if address = 0xFF01 then some s.serial_byte
  else if address = 0xFF02 then some s.serial_control
  else if address = 0xFF04 then some (wrap8 (s.timer_divider >>> 6))
  else if address = 0xFF05 then some s.timer_counter
  else if address = 0xFF06 then some s.timer_modulo
  else if address = 0xFF07 then some s.timer_control
  else if address = 0xFF0F then some s.interrupt_flag
  else if 0xFF10 ≤ address ∧ address < 0xFF27 then some 0
  else if 0xFF30 ≤ address ∧ address < 0xFF40 then some 0
  else if address = 0xFF46 then some s.dma
  else if address = 0xFF47 then some s.dmg_bg_pallette
  else if address = 0xFF48 then some s.dmg_obj_pallette_0
  else if address = 0xFF49 then some s.dmg_obj_pallette_1
  else if (0xFF40 ≤ address ∧ address < 0xFF46) ∨ address = 0xFF4A ∨ address = 0xFF4B then
    s.ppu.read address
  else if address = 0xFF4D then some 0
  else if address = 0xFF4F then some 0
  else if 0xFF51 ≤ address ∧ address < 0xFF55 then some 0
  else if address = 0xFF55 then some 0
  else if address = 0xFF56 then some 0
  else if 0xFF68 ≤ address ∧ address < 0xFF6D then some 0
  else if address = 0xFF70 then some 0
  else if address = 0xFF76 ∨ address = 0xFF77 then some 0
  else some 0

/-- GBConsole::read.  The echo-RAM branch recurses at address - 0x2000, exactly
as the source does; the I/O-register match is read_io. -/
def GBConsole.read (s : GBConsole) (address : Nat) : Option Nat :=
  if _h1 : address < 0x8000 then
    s.cartridge.read address
  else if _h2 : address < 0xA000 then
    s.ppu.read address
  else if _h3 : address < 0xC000 then
    s.cartridge.read address
  else if _h4 : address < 0xD000 then
    some (wrap8 (s.working_ram (address - 0xC000)))
  else if _h5 : address < 0xE000 then
    (s.aux_working_ram.get? s.aux_working_ram_index).map (fun bank => wrap8 (bank (address - 0xD000)))
  else if _h6 : address < 0xFE00 then
    s.read (address - 0x2000)
  else if _h7 : address < 0xFEA0 then
    s.ppu.read address
  else if _h8 : address < 0xFF00 then
    if s.ppu.get_mode = 2 ∨ s.ppu.get_mode = 3 then some 0xFF else some 0x00
  else if _h9 : address < 0xFF80 then
    s.read_io address
  else if _h10 : address < 0xFFFF then
    some (wrap8 (s.high_ram (address - 0xFF80)))
  else
    some s.interrupt_enable
termination_by address
decreasing_by omega

/-- GBConsole::read_16: panics at 0xFFFF, otherwise the little-endian pair. -/
def GBConsole.read_16 (s : GBConsole) (address : Nat) : Option Nat := do
  if address = 0xFFFF then none
  else
    let lsb ← s.read address
    let msb ← s.read (address + 1)
    some (lsb + 256 * msb)

/-- The I/O-register arm (0xFF00-0xFF7F) of GBConsole::write; read-only,
unimplemented and unknown registers are silent no-ops. -/
def GBConsole.write_io (s : GBConsole) (address value : Nat) : Option GBConsole :=
  if address = 0xFF00 then some s
  else if address = 0xFF01 then
    if s.serial_control &&& 0x80 > 0 then some s
    else some {s with serial_byte := value}
  else if address = 0xFF02 then
    if s.serial_control &&& 0x80 > 0 then some {s with serial_control := value ||| 0x80}
    else if value &&& 0x80 > 0 then some {s with serial_counter := 8, serial_control := value}
    else some {s with serial_control := value}
  else if address = 0xFF04 then some {s with timer_divider := 0}
  else if address = 0xFF05 then some {s with timer_counter := value}
  else if address = 0xFF06 then some {s with timer_modulo := value}
  else if address = 0xFF07 then some {s with timer_control := value}
  else if address = 0xFF0F then some {s with interrupt_flag := value}
  else if address = 0xFF46 then
    some {s with dma_counter := 0, dma := if value < 0xDF then value else 0xDF}
  else if 0xFF10 ≤ address ∧ address < 0xFF27 then some s
  else if 0xFF30 ≤ address ∧ address < 0xFF40 then some s
  else if address = 0xFF47 then some {s with dmg_bg_pallette := value}
  else if address = 0xFF48 then some {s with dmg_obj_pallette_0 := value}
  else if address = 0xFF49 then some {s with dmg_obj_pallette_1 := value}
  else if (0xFF40 ≤ address ∧ address < 0xFF46) ∨ address = 0xFF4A ∨ address = 0xFF4B then
    (s.ppu.write address value).map (fun p => {s with ppu := p})
  else if address = 0xFF4D then some s
  else if address = 0xFF4F then some s
  else if 0xFF51 ≤ address ∧ address < 0xFF56 then some s
  else if address = 0xFF56 then some s
  else if 0xFF68 ≤ address ∧ address < 0xFF6D then some s
  else if address = 0xFF70 then some s
  else if address = 0xFF76 ∨ address = 0xFF77 then some s
  else some s

/-- GBConsole::write.  Echo RAM recurses at address - 0x2000; the prohibited
region is a silent no-op and the I/O-register match is write_io. -/
def GBConsole.write (s : GBConsole) (address value : Nat) : Option GBConsole :=
  if _h1 : address < 0x8000 then
    (s.cartridge.write address value).map (fun m => {s with cartridge := m})
  else if _h2 : address < 0xA000 then
    (s.ppu.write address value).map (fun p => {s with ppu := p})
  else if _h3 : address < 0xC000 then
    (s.cartridge.write address value).map (fun m => {s with cartridge := m})
  else if _h4 : address < 0xD000 then
    some {s with working_ram := updf s.working_ram (address - 0xC000) value}
  else if _h5 : address < 0xE000 then
    match s.aux_working_ram.get? s.aux_working_ram_index with
    | some bank =>
      some {s with aux_working_ram :=
        s.aux_working_ram.set s.aux_working_ram_index (updf bank (address - 0xD000) value)}
    | none => none
  else if _h6 : address < 0xFE00 then
    s.write (address - 0x2000) value
  else if _h7 : address < 0xFEA0 then
    (s.ppu.write address value).map (fun p => {s with ppu := p})
  else if _h8 : address < 0xFF00 then
    some s
  else if _h9 : address < 0xFF80 then
    s.write_io address value
  else if _h10 : address < 0xFFFF then
    some {s with high_ram := updf s.high_ram (address - 0xFF80) value}
  else
    some {s with interrupt_enable := value}
termination_by address
decreasing_by omega

/-- GBConsole::write_16: panics at 0xFFFF, otherwise writes the low byte at the
address and the high byte one above. -/
def GBConsole.write_16 (s : GBConsole) (address value : Nat) : Option GBConsole := do
  if address = 0xFFFF then none
  else
    let s ← s.write address (wrap8 value)
    s.write (address + 1) (wrap8 (value >>> 8))

/-- GBConsole::flag_toggle. -/
def GBConsole.flag_toggle (s : GBConsole) (condition : Bool) (flag : Nat) : GBConsole :=
  if condition then {s with flags := s.flags ||| flag}
  else {s with flags := s.flags &&& (0xFF ^^^ flag)}

/-- GBConsole::handle_interrupt.  The 5-iteration search loop for the lowest
pending bit is unrolled; bit 32 (loop exhausted) falls to the wildcard arm that
returns 0.  Servicing pushes the program counter (write_16 can panic when the
decremented stack pointer is 0xFFFF), jumps to the vector, disables the master
flag, clears the flag bit and charges 20 cycles. -/
def GBConsole.handle_interrupt (s : GBConsole) : Option (GBConsole × Nat) :=
  let s := if s.is_halted ∧ s.interrupt_flag &&& 0b00011111 > 0 then {s with is_halted := false} else s
  if s.interrupt_master_enable_flag = IMEState.Enabled then
    let bit_to_check :=
      if s.interrupt_enable &&& 1 > 0 ∧ s.interrupt_flag &&& 1 > 0 then 1
      else if s.interrupt_enable &&& 2 > 0 ∧ s.interrupt_flag &&& 2 > 0 then 2
      else if s.interrupt_enable &&& 4 > 0 ∧ s.interrupt_flag &&& 4 > 0 then 4
      else if s.interrupt_enable &&& 8 > 0 ∧ s.interrupt_flag &&& 8 > 0 then 8
      else if s.interrupt_enable &&& 16 > 0 ∧ s.interrupt_flag &&& 16 > 0 then 16
      else 32
    let interrupt_vector? : Option Nat :=
      if bit_to_check = 1 then some 0x40
      else if bit_to_check = 2 then some 0x48
      else if bit_to_check = 4 then some 0x50
      else if bit_to_check = 8 then some 0x58
      else if bit_to_check = 16 then some 0x60
      else none
    match interrupt_vector? with
    | none => some (s, 0)
    | some interrupt_vector => do
      let s := {s with stack_pointer := sub16 s.stack_pointer 2}
      let s ← s.write_16 s.stack_pointer s.program_counter
      some ({s with
        program_counter := interrupt_vector,
        interrupt_master_enable_flag := IMEState.Disabled,
        interrupt_flag := s.interrupt_flag &&& (0xFF ^^^ bit_to_check)}, 20)
  else
    some (s, 0)

/-- GBConsole::update_timer.  A deferred overflow from the previous call reloads
the counter and requests the timer interrupt; then the divider ticks, and when
the timer is enabled and the divider mask hits, the counter increments, latching
a new deferred overflow when it wraps to zero.  The source's wildcard panic arm
of the divisor match is unreachable because the selector is masked to two bits,
so the wildcard here is the remaining selector 0b11. -/
def GBConsole.update_timer (s : GBConsole) : GBConsole :=
  let s :=
    if s.timer_overflowed then
      {s with timer_counter := s.timer_modulo,
              interrupt_flag := s.interrupt_flag ||| 0b100,
              timer_overflowed := false}
    else s
  let s := {s with timer_divider := wrap16 (s.timer_divider + 1)}
  if s.timer_control &&& 0b100 > 0 then
    let increment_every :=
      if s.timer_control &&& 0b11 = 0 then 0xFF
      else if s.timer_control &&& 0b11 = 1 then 0x04
      else if s.timer_control &&& 0b11 = 2 then 0x0F
      else 0x3F
    if s.timer_divider &&& increment_every = 0 then
      let s := {s with timer_counter := add8 s.timer_counter 1}
      if s.timer_counter = 0 then {s with timer_overflowed := true} else s
    else s
  else s

/-- Common tail of execute_instruction: advance the program counter by the
instruction size (u16 wrapping) and report the cycle count. -/
def GBConsole.finish_instruction (s : GBConsole) (instruction_size cycle_count : Nat) :
    Option (GBConsole × Nat) :=
  some ({s with program_counter := wrap16 (s.program_counter + instruction_size)}, cycle_count)

/-- The 8-bit register file selection (b c d e h l [hl] a) that the source
repeats as a match in blocks 1, 2 and the prefixed decoder; selector 6 is the
indirect-HL case, handled separately at every use site. -/
def GBConsole.reg8_get (s : GBConsole) (selector : Nat) : Option Nat :=
  if selector = 0 then some s.b
  else if selector = 1 then some s.c
  else if selector = 2 then some s.d
  else if selector = 3 then some s.e
  else if selector = 4 then some s.h
  else if selector = 5 then some s.l
  else if selector = 7 then some s.a
  else none

/-- Writing to a selected 8-bit register (counterpart of reg8_get). -/
def GBConsole.reg8_set (s : GBConsole) (selector value : Nat) : Option GBConsole :=
  if selector = 0 then some {s with b := value}
  else if selector = 1 then some {s with c := value}
  else if selector = 2 then some {s with d := value}
  else if selector = 3 then some {s with e := value}
  else if selector = 4 then some {s with h := value}
  else if selector = 5 then some {s with l := value}
  else if selector = 7 then some {s with a := value}
  else none

/-- The NZ/Z/NC/C condition match repeated verbatim by the source in the RET cc,
JP cc and CALL cc arms; the selector is opcode AND 0o030. -/
def GBConsole.condition_check (s : GBConsole) (selector : Nat) : Option Bool :=
  if selector = 0o000 then some (decide (s.flags &&& Z_ZERO_FLAG = 0))
  else if selector = 0o010 then some (decide (s.flags &&& Z_ZERO_FLAG > 0))
  else if selector = 0o020 then some (decide (s.flags &&& C_CARRY_FLAG = 0))
  else if selector = 0o030 then some (decide (s.flags &&& C_CARRY_FLAG > 0))
  else none

/-- The eight ALU operations of block 2; the source repeats the identical match
bodies for the register/indirect operand (block 2) and for the immediate
operand (block 3, column 6), so both call sites share this definition.  The
selector is opcode AND 0o070. -/
def GBConsole.alu_op (s : GBConsole) (selector operand : Nat) : Option GBConsole :=
  if selector = 0o000 then
    let temp_a := s.a
    let s := {s with a := add8 s.a operand}
    let s := s.flag_toggle (decide (s.a = 0)) Z_ZERO_FLAG
    let s := s.flag_toggle false N_SUBTRACTION_FLAG
    let s := s.flag_toggle (decide ((temp_a &&& 0x0F) > (s.a &&& 0x0F))) H_HALF_CARRY_FLAG
    let s := s.flag_toggle (decide (temp_a > s.a)) C_CARRY_FLAG
    some s
  else if selector = 0o010 then
    let temp_a := s.a
    let s := {s with a := add8 s.a operand}
    let s := if s.flags &&& C_CARRY_FLAG > 0 then {s with a := add8 s.a 1} else s
    let s := s.flag_toggle (decide (s.a = 0)) Z_ZERO_FLAG
    let s := s.flag_toggle false N_SUBTRACTION_FLAG
    let s := s.flag_toggle (decide ((temp_a &&& 0x0F) > (s.a &&& 0x0F))) H_HALF_CARRY_FLAG
    let s := s.flag_toggle (decide (temp_a > s.a)) C_CARRY_FLAG
    some s
  else if selector = 0o020 then
    let temp_a := s.a
    let s := {s with a := sub8 s.a operand}
    let s := s.flag_toggle (decide (s.a = 0)) Z_ZERO_FLAG
    let s := s.flag_toggle true N_SUBTRACTION_FLAG
    let s := s.flag_toggle (decide ((temp_a &&& 0x0F) < (s.a &&& 0x0F))) H_HALF_CARRY_FLAG
    let s := s.flag_toggle (decide (temp_a < s.a)) C_CARRY_FLAG
    some s
  else if selector = 0o030 then
    let temp_a := s.a
    let s := {s with a := sub8 s.a operand}
    let s := if s.flags &&& C_CARRY_FLAG > 0 then {s with a := sub8 s.a 1} else s
    let s := s.flag_toggle (decide (s.a = 0)) Z_ZERO_FLAG
    let s := s.flag_toggle true N_SUBTRACTION_FLAG
    let s := s.flag_toggle (decide ((temp_a &&& 0x0F) < (s.a &&& 0x0F))) H_HALF_CARRY_FLAG
    let s := s.flag_toggle (decide (temp_a < s.a)) C_CARRY_FLAG
    some s
  else if selector = 0o040 then
    let s := {s with a := s.a &&& operand}
    let s := s.flag_toggle (decide (s.a = 0)) Z_ZERO_FLAG
    let s := s.flag_toggle true H_HALF_CARRY_FLAG
    let s := s.flag_toggle false (N_SUBTRACTION_FLAG ||| C_CARRY_FLAG)
    some s
  else if selector = 0o050 then
    let s := {s with a := s.a ^^^ operand}
    let s := s.flag_toggle (decide (s.a = 0)) Z_ZERO_FLAG
    let s := s.flag_toggle false (N_SUBTRACTION_FLAG ||| H_HALF_CARRY_FLAG ||| C_CARRY_FLAG)
    some s
  else if selector = 0o060 then
    let s := {s with a := s.a ||| operand}
    let s := s.flag_toggle (decide (s.a = 0)) Z_ZERO_FLAG
    let s := s.flag_toggle false (N_SUBTRACTION_FLAG ||| H_HALF_CARRY_FLAG ||| C_CARRY_FLAG)
    some s
  else if selector = 0o070 then
    let comparison := sub8 s.a operand
    let s := s.flag_toggle (decide (comparison = 0)) Z_ZERO_FLAG
    let s := s.flag_toggle true N_SUBTRACTION_FLAG
    let s := s.flag_toggle (decide ((s.a &&& 0x0F) < (comparison &&& 0x0F))) H_HALF_CARRY_FLAG
    let s := s.flag_toggle (decide (s.a < comparison)) C_CARRY_FLAG
    some s
  else none


/-- Prefixed RLC r8 | RLC [HL] arm. -/
def GBConsole.exec_cb_rlc (s : GBConsole) (opcode : Nat) : Option (GBConsole × Nat) :=
  let cycle_count := if opcode &&& 0o007 = 0o006 then 16 else 8
  if opcode &&& 0o007 = 0o006 then do
    let address := u16be s.h s.l
    let value ← s.read address
    let value2 := wrap8 (value <<< 1)
    let value3 := if value &&& 0x80 > 0 then add8 value2 1 else value2
    let s ← s.write address value3
    let s := s.flag_toggle (decide (value = 0)) Z_ZERO_FLAG
    let s := s.flag_toggle false (N_SUBTRACTION_FLAG ||| H_HALF_CARRY_FLAG)
    let s := s.flag_toggle (decide (value &&& 0x80 > 0)) C_CARRY_FLAG
    some (s, cycle_count)
  else do
    let operand ← s.reg8_get (opcode &&& 0o007)
    let operand2 := wrap8 (operand <<< 1)
    let operand3 := if operand &&& 0x80 > 0 then add8 operand2 1 else operand2
    let s ← s.reg8_set (opcode &&& 0o007) operand3
    let s := s.flag_toggle (decide (operand = 0)) Z_ZERO_FLAG
    let s := s.flag_toggle false (N_SUBTRACTION_FLAG ||| H_HALF_CARRY_FLAG)
    let s := s.flag_toggle (decide (operand &&& 0x80 > 0)) C_CARRY_FLAG
    some (s, cycle_count)

/-- Prefixed RRC r8 | RRC [HL] arm. -/
def GBConsole.exec_cb_rrc (s : GBConsole) (opcode : Nat) : Option (GBConsole × Nat) :=
  let cycle_count := if opcode &&& 0o007 = 0o006 then 16 else 8
  if opcode &&& 0o007 = 0o006 then do
    let address := u16be s.h s.l
    let value ← s.read address
    let value2 := value >>> 1
    let value3 := if value &&& 0x01 > 0 then add8 value2 0x80 else value2
    let s ← s.write address value3
    let s := s.flag_toggle (decide (value = 0)) Z_ZERO_FLAG
    let s := s.flag_toggle false (N_SUBTRACTION_FLAG ||| H_HALF_CARRY_FLAG)
    let s := s.flag_toggle (decide (value &&& 0x01 > 0)) C_CARRY_FLAG
    some (s, cycle_count)
  else do
    let operand ← s.reg8_get (opcode &&& 0o007)
    let operand2 := operand >>> 1
    let operand3 := if operand &&& 0x01 > 0 then add8 operand2 0x80 else operand2
    let s ← s.reg8_set (opcode &&& 0o007) operand3
    let s := s.flag_toggle (decide (operand = 0)) Z_ZERO_FLAG
    let s := s.flag_toggle false (N_SUBTRACTION_FLAG ||| H_HALF_CARRY_FLAG)
    let s := s.flag_toggle (decide (operand &&& 0x01 > 0)) C_CARRY_FLAG
    some (s, cycle_count)

/-- Prefixed RL r8 | RL [HL] arm (rotate through the old carry flag). -/
def GBConsole.exec_cb_rl (s : GBConsole) (opcode : Nat) : Option (GBConsole × Nat) :=
  let cycle_count := if opcode &&& 0o007 = 0o006 then 16 else 8
  if opcode &&& 0o007 = 0o006 then do
    let address := u16be s.h s.l
    let value ← s.read address
    let value2 := wrap8 (value <<< 1)
    let value3 := if s.flags &&& C_CARRY_FLAG > 0 then add8 value2 1 else value2
    let s ← s.write address value3
    let s := s.flag_toggle (decide (value = 0)) Z_ZERO_FLAG
    let s := s.flag_toggle false (N_SUBTRACTION_FLAG ||| H_HALF_CARRY_FLAG)
    let s := s.flag_toggle (decide (value &&& 0x80 > 0)) C_CARRY_FLAG
    some (s, cycle_count)
  else do
    let operand ← s.reg8_get (opcode &&& 0o007)
    let operand2 := wrap8 (operand <<< 1)
    let operand3 := if s.flags &&& C_CARRY_FLAG > 0 then add8 operand2 1 else operand2
    let s ← s.reg8_set (opcode &&& 0o007) operand3
    let s := s.flag_toggle (decide (operand = 0)) Z_ZERO_FLAG
    let s := s.flag_toggle false (N_SUBTRACTION_FLAG ||| H_HALF_CARRY_FLAG)
    let s := s.flag_toggle (decide (operand &&& 0x80 > 0)) C_CARRY_FLAG
    some (s, cycle_count)

/-- Prefixed RR r8 | RR [HL] arm (rotate through the old carry flag). -/
def GBConsole.exec_cb_rr (s : GBConsole) (opcode : Nat) : Option (GBConsole × Nat) :=
  let cycle_count := if opcode &&& 0o007 = 0o006 then 16 else 8
  if opcode &&& 0o007 = 0o006 then do
    let address := u16be s.h s.l
    let value ← s.read address
    let value2 := value >>> 1
    let value3 := if s.flags &&& C_CARRY_FLAG > 0 then add8 value2 0x80 else value2
    let s ← s.write address value3
    let s := s.flag_toggle (decide (value = 0)) Z_ZERO_FLAG
    let s := s.flag_toggle false (N_SUBTRACTION_FLAG ||| H_HALF_CARRY_FLAG)
    let s := s.flag_toggle (decide (value &&& 0x01 > 0)) C_CARRY_FLAG
    some (s, cycle_count)
  else do
    let operand ← s.reg8_get (opcode &&& 0o007)
    let operand2 := operand >>> 1
    let operand3 := if s.flags &&& C_CARRY_FLAG > 0 then add8 operand2 0x80 else operand2
    let s ← s.reg8_set (opcode &&& 0o007) operand3
    let s := s.flag_toggle (decide (operand = 0)) Z_ZERO_FLAG
    let s := s.flag_toggle false (N_SUBTRACTION_FLAG ||| H_HALF_CARRY_FLAG)
    let s := s.flag_toggle (decide (operand &&& 0x01 > 0)) C_CARRY_FLAG
    some (s, cycle_count)

/-- Prefixed SLA r8 | SLA [HL] arm. -/
def GBConsole.exec_cb_sla (s : GBConsole) (opcode : Nat) : Option (GBConsole × Nat) :=
  let cycle_count := if opcode &&& 0o007 = 0o006 then 16 else 8
  if opcode &&& 0o007 = 0o006 then do
    let address := u16be s.h s.l
    let value ← s.read address
    let s ← s.write address (wrap8 (value <<< 1))
    let s := s.flag_toggle (decide (value = 0)) Z_ZERO_FLAG
    let s := s.flag_toggle false (N_SUBTRACTION_FLAG ||| H_HALF_CARRY_FLAG)
    let s := s.flag_toggle (decide (value &&& 0x80 > 0)) C_CARRY_FLAG
    some (s, cycle_count)
  else do
    let operand ← s.reg8_get (opcode &&& 0o007)
    let s ← s.reg8_set (opcode &&& 0o007) (wrap8 (operand <<< 1))
    let s := s.flag_toggle (decide (operand = 0)) Z_ZERO_FLAG
    let s := s.flag_toggle false (N_SUBTRACTION_FLAG ||| H_HALF_CARRY_FLAG)
    let s := s.flag_toggle (decide (operand &&& 0x80 > 0)) C_CARRY_FLAG
    some (s, cycle_count)

/-- Prefixed SRA r8 | SRA [HL] arm (keeps the sign bit). -/
def GBConsole.exec_cb_sra (s : GBConsole) (opcode : Nat) : Option (GBConsole × Nat) :=
  let cycle_count := if opcode &&& 0o007 = 0o006 then 16 else 8
  if opcode &&& 0o007 = 0o006 then do
    let address := u16be s.h s.l
    let value ← s.read address
    let s ← s.write address ((value >>> 1) ||| (value &&& 0x80))
    let s := s.flag_toggle (decide (value = 0)) Z_ZERO_FLAG
    let s := s.flag_toggle false (N_SUBTRACTION_FLAG ||| H_HALF_CARRY_FLAG)
    let s := s.flag_toggle (decide (value &&& 0x01 > 0)) C_CARRY_FLAG
    some (s, cycle_count)
  else do
    let operand ← s.reg8_get (opcode &&& 0o007)
    let s ← s.reg8_set (opcode &&& 0o007) ((operand >>> 1) ||| (operand &&& 0x80))
    let s := s.flag_toggle (decide (operand = 0)) Z_ZERO_FLAG
    let s := s.flag_toggle false (N_SUBTRACTION_FLAG ||| H_HALF_CARRY_FLAG)
    let s := s.flag_toggle (decide (operand &&& 0x01 > 0)) C_CARRY_FLAG
    some (s, cycle_count)

/-- Prefixed SWAP r8 | SWAP [HL] arm. -/
def GBConsole.exec_cb_swap (s : GBConsole) (opcode : Nat) : Option (GBConsole × Nat) :=
  let cycle_count := if opcode &&& 0o007 = 0o006 then 16 else 8
  if opcode &&& 0o007 = 0o006 then do
    let address := u16be s.h s.l
    let value ← s.read address
    let s ← s.write address (wrap8 (value <<< 4) ||| (value >>> 4))
    let s := s.flag_toggle false (N_SUBTRACTION_FLAG ||| H_HALF_CARRY_FLAG ||| C_CARRY_FLAG)
    let s := s.flag_toggle (decide (value = 0)) Z_ZERO_FLAG
    some (s, cycle_count)
  else do
    let operand ← s.reg8_get (opcode &&& 0o007)
    let s ← s.reg8_set (opcode &&& 0o007) (wrap8 (operand <<< 4) ||| (operand >>> 4))
    let s := s.flag_toggle false (N_SUBTRACTION_FLAG ||| H_HALF_CARRY_FLAG ||| C_CARRY_FLAG)
    let s := s.flag_toggle (decide (operand = 0)) Z_ZERO_FLAG
    some (s, cycle_count)

/-- Prefixed SRL r8 | SRL [HL] arm. -/
def GBConsole.exec_cb_srl (s : GBConsole) (opcode : Nat) : Option (GBConsole × Nat) :=
  let cycle_count := if opcode &&& 0o007 = 0o006 then 16 else 8
  if opcode &&& 0o007 = 0o006 then do
    let address := u16be s.h s.l
    let value ← s.read address
    let s ← s.write address (value >>> 1)
    let s := s.flag_toggle (decide (value = 0)) Z_ZERO_FLAG
    let s := s.flag_toggle false (N_SUBTRACTION_FLAG ||| H_HALF_CARRY_FLAG)
    let s := s.flag_toggle (decide (value &&& 0x01 > 0)) C_CARRY_FLAG
    some (s, cycle_count)
  else do
    let operand ← s.reg8_get (opcode &&& 0o007)
    let s ← s.reg8_set (opcode &&& 0o007) (operand >>> 1)
    let s := s.flag_toggle (decide (operand = 0)) Z_ZERO_FLAG
    let s := s.flag_toggle false (N_SUBTRACTION_FLAG ||| H_HALF_CARRY_FLAG)
    let s := s.flag_toggle (decide (operand &&& 0x01 > 0)) C_CARRY_FLAG
    some (s, cycle_count)

/-- Prefixed BIT u3, r8 | BIT u3, [HL] arm (12 cycles for [HL], 8 otherwise). -/
def GBConsole.exec_cb_bit (s : GBConsole) (opcode : Nat) : Option (GBConsole × Nat) := do
  let cycle_count := if opcode &&& 0o007 = 0o006 then 16 else 8
  let u3 := (opcode &&& 0o070) >>> 3
  let tested_bit := 1 <<< u3
  let (s, cycle_count) ←
    if opcode &&& 0o007 = 0o006 then
      (s.read (u16be s.h s.l)).map
        (fun value => (s.flag_toggle (decide (value &&& tested_bit = 0)) Z_ZERO_FLAG, 12))
    else
      (s.reg8_get (opcode &&& 0o007)).map
        (fun operand => (s.flag_toggle (decide (operand &&& tested_bit = 0)) Z_ZERO_FLAG, cycle_count))
  let s := s.flag_toggle false N_SUBTRACTION_FLAG
  let s := s.flag_toggle true H_HALF_CARRY_FLAG
  some (s, cycle_count)

/-- Prefixed RES u3, r8 | RES u3, [HL] arm. -/
def GBConsole.exec_cb_res (s : GBConsole) (opcode : Nat) : Option (GBConsole × Nat) :=
  let cycle_count := if opcode &&& 0o007 = 0o006 then 16 else 8
  let u3 := (opcode &&& 0o070) >>> 3
  let reset_bit := 1 <<< u3
  if opcode &&& 0o007 = 0o006 then do
    let address := u16be s.h s.l
    let value ← s.read address
    let s ← s.write address (value &&& (0xFF ^^^ reset_bit))
    some (s, cycle_count)
  else do
    let operand ← s.reg8_get (opcode &&& 0o007)
    let s ← s.reg8_set (opcode &&& 0o007) (operand &&& (0xFF ^^^ reset_bit))
    some (s, cycle_count)

/-- Prefixed SET u3, r8 | SET u3, [HL] arm. -/
def GBConsole.exec_cb_set (s : GBConsole) (opcode : Nat) : Option (GBConsole × Nat) :=
  let cycle_count := if opcode &&& 0o007 = 0o006 then 16 else 8
  let u3 := (opcode &&& 0o070) >>> 3
  let set_bit := 1 <<< u3
  if opcode &&& 0o007 = 0o006 then do
    let address := u16be s.h s.l
    let value ← s.read address
    let s ← s.write address (value ||| set_bit)
    some (s, cycle_count)
  else do
    let operand ← s.reg8_get (opcode &&& 0o007)
    let s ← s.reg8_set (opcode &&& 0o007) (operand ||| set_bit)
    some (s, cycle_count)

/-- GBConsole::execute_prefixed_instruction (the 0xCB-prefixed decoder): reads
the second opcode byte and dispatches on its block and sub-fields; the wildcard
panic arms of the source are none. -/
def GBConsole.execute_prefixed_instruction (s : GBConsole) : Option (GBConsole × Nat) := do
  let opcode ← s.read (wrap16 (s.program_counter + 1))
  if opcode &&& 0o300 = 0o000 then
    if opcode &&& 0o070 = 0o000 then s.exec_cb_rlc opcode
    else if opcode &&& 0o070 = 0o010 then s.exec_cb_rrc opcode
    else if opcode &&& 0o070 = 0o020 then s.exec_cb_rl opcode
    else if opcode &&& 0o070 = 0o030 then s.exec_cb_rr opcode
    else if opcode &&& 0o070 = 0o040 then s.exec_cb_sla opcode
    else if opcode &&& 0o070 = 0o050 then s.exec_cb_sra opcode
    else if opcode &&& 0o070 = 0o060 then s.exec_cb_swap opcode
    else if opcode &&& 0o070 = 0o070 then s.exec_cb_srl opcode
    else none
  else if opcode &&& 0o300 = 0o100 then s.exec_cb_bit opcode
  else if opcode &&& 0o300 = 0o200 then s.exec_cb_res opcode
  else if opcode &&& 0o300 = 0o300 then s.exec_cb_set opcode
  else none

/-- LD [n16], SP (0o010): 20 cycles, 3 bytes. -/
def GBConsole.exec_ld_a16_sp (s : GBConsole) : Option (GBConsole × Nat) := do
  let address ← s.read_16 (wrap16 (s.program_counter + 1))
  let s ← s.write_16 address s.stack_pointer
  s.finish_instruction 3 20

/-- RLCA (0o007). -/
def GBConsole.exec_rlca (s : GBConsole) : Option (GBConsole × Nat) :=
  let s := s.flag_toggle false (Z_ZERO_FLAG ||| N_SUBTRACTION_FLAG ||| H_HALF_CARRY_FLAG)
  let s := s.flag_toggle (decide (s.a &&& 0x80 > 0)) C_CARRY_FLAG
  let s := {s with a := wrap8 (s.a <<< 1)}
  let s := if s.flags &&& C_CARRY_FLAG > 0 then {s with a := add8 s.a 0x01} else s
  s.finish_instruction 1 4

/-- RRCA (0o017). -/
def GBConsole.exec_rrca (s : GBConsole) : Option (GBConsole × Nat) :=
  let s := s.flag_toggle false (Z_ZERO_FLAG ||| N_SUBTRACTION_FLAG ||| H_HALF_CARRY_FLAG)
  let s := s.flag_toggle (decide (s.a &&& 0x01 > 0)) C_CARRY_FLAG
  let s := {s with a := s.a >>> 1}
  let s := if s.flags &&& C_CARRY_FLAG > 0 then {s with a := add8 s.a 0x80} else s
  s.finish_instruction 1 4

/-- RLA (0o027): rotate left through the old carry. -/
def GBConsole.exec_rla (s : GBConsole) : Option (GBConsole × Nat) :=
  let s := s.flag_toggle false (Z_ZERO_FLAG ||| N_SUBTRACTION_FLAG ||| H_HALF_CARRY_FLAG)
  let will_carry := decide (s.a &&& 0x80 > 0)
  let s := {s with a := wrap8 (s.a <<< 1)}
  let s := if s.flags &&& C_CARRY_FLAG > 0 then {s with a := add8 s.a 0x01} else s
  let s := s.flag_toggle will_carry C_CARRY_FLAG
  s.finish_instruction 1 4

/-- RRA (0o037): rotate right through the old carry. -/
def GBConsole.exec_rra (s : GBConsole) : Option (GBConsole × Nat) :=
  let s := s.flag_toggle false (Z_ZERO_FLAG ||| N_SUBTRACTION_FLAG ||| H_HALF_CARRY_FLAG)
  let will_carry := decide (s.a &&& 0x01 > 0)
  let s := {s with a := s.a >>> 1}
  let s := if s.flags &&& C_CARRY_FLAG > 0 then {s with a := add8 s.a 0x80} else s
  let s := s.flag_toggle will_carry C_CARRY_FLAG
  s.finish_instruction 1 4

/-- DAA (0o047), mirrored exactly, including the strict greater-than-1 test of
the half-carry flag in the addition branch. -/
def GBConsole.exec_daa (s : GBConsole) : Option (GBConsole × Nat) :=
  let s :=
    if s.flags &&& N_SUBTRACTION_FLAG > 0 then
      let s := if s.flags &&& H_HALF_CARRY_FLAG > 0 then {s with a := sub8 s.a 0x6} else s
      let s := if s.flags &&& C_CARRY_FLAG > 0 then {s with a := sub8 s.a 0x60} else s
      s
    else
      let s :=
        if (s.flags &&& C_CARRY_FLAG > 0) ∨ (s.a > 0x99) then
          let s := {s with a := add8 s.a 0x60}
          s.flag_toggle true C_CARRY_FLAG
        else s
      let s := if (s.flags &&& H_HALF_CARRY_FLAG > 1) ∨ (s.a &&& 0xF > 0x9) then {s with a := add8 s.a 0x6} else s
      s
  let s := s.flag_toggle false H_HALF_CARRY_FLAG
  let s := s.flag_toggle (decide (s.a = 0)) Z_ZERO_FLAG
  s.finish_instruction 1 4

/-- CPL (0o057). -/
def GBConsole.exec_cpl (s : GBConsole) : Option (GBConsole × Nat) :=
  let s := {s with a := s.a ^^^ 0xFF}
  let s := s.flag_toggle true (N_SUBTRACTION_FLAG ||| H_HALF_CARRY_FLAG)
  s.finish_instruction 1 4

/-- SCF (0o067). -/
def GBConsole.exec_scf (s : GBConsole) : Option (GBConsole × Nat) :=
  let s := s.flag_toggle true C_CARRY_FLAG
  let s := s.flag_toggle false (N_SUBTRACTION_FLAG ||| H_HALF_CARRY_FLAG)
  s.finish_instruction 1 4

/-- CCF (0o077). -/
def GBConsole.exec_ccf (s : GBConsole) : Option (GBConsole × Nat) :=
  let s := s.flag_toggle (decide (s.flags &&& C_CARRY_FLAG = 0)) C_CARRY_FLAG
  let s := s.flag_toggle false (N_SUBTRACTION_FLAG ||| H_HALF_CARRY_FLAG)
  s.finish_instruction 1 4

/-- HALT (0o166): halts only when the master flag is Enabled, or when it is not
Enabled and no low interrupt-flag bit is set. -/
def GBConsole.exec_halt (s : GBConsole) : Option (GBConsole × Nat) :=
  let s :=
    if s.interrupt_master_enable_flag = IMEState.Enabled then {s with is_halted := true}
    else if s.interrupt_flag &&& 0b00011111 = 0 then {s with is_halted := true}
    else s
  s.finish_instruction 1 4

/-- JP a16 (0o303): 16 cycles. -/
def GBConsole.exec_jp_a16 (s : GBConsole) : Option (GBConsole × Nat) := do
  let target ← s.read_16 (wrap16 (s.program_counter + 1))
  GBConsole.finish_instruction {s with program_counter := target} 0 16

/-- RET (0o311): 16 cycles. -/
def GBConsole.exec_ret (s : GBConsole) : Option (GBConsole × Nat) := do
  let target ← s.read_16 s.stack_pointer
  GBConsole.finish_instruction
    {s with program_counter := target, stack_pointer := wrap16 (s.stack_pointer + 2)} 0 16

/-- CALL a16 (0o315): the source reports 6 cycles (the documented count is 24). -/
def GBConsole.exec_call_a16 (s : GBConsole) : Option (GBConsole × Nat) := do
  let s := {s with stack_pointer := sub16 s.stack_pointer 2}
  let s ← s.write_16 s.stack_pointer (wrap16 (s.program_counter + 3))
  let target ← s.read_16 (wrap16 (s.program_counter + 1))
  GBConsole.finish_instruction {s with program_counter := target} 0 6

/-- RETI (0o331): RET plus enabling the master flag. -/
def GBConsole.exec_reti (s : GBConsole) : Option (GBConsole × Nat) := do
  let target ← s.read_16 s.stack_pointer
  GBConsole.finish_instruction
    {s with program_counter := target, stack_pointer := wrap16 (s.stack_pointer + 2),
            interrupt_master_enable_flag := IMEState.Enabled} 0 16

/-- LDH [a8], A (0o340): 12 cycles, 2 bytes. -/
def GBConsole.exec_ldh_a8_a (s : GBConsole) : Option (GBConsole × Nat) := do
  let offset ← s.read (wrap16 (s.program_counter + 1))
  let s ← s.write (u16be 0xFF offset) s.a
  s.finish_instruction 2 12

/-- ADD SP, e8 (0o350): 16 cycles, 2 bytes. -/
def GBConsole.exec_add_sp_e8 (s : GBConsole) : Option (GBConsole × Nat) := do
  let offset_lsb ← s.read (wrap16 (s.program_counter + 1))
  let offset := if offset_lsb &&& 0x80 = 0 then u16be 0x00 offset_lsb else u16be 0xFF offset_lsb
  let s := {s with stack_pointer := wrap16 (s.stack_pointer + offset)}
  let carry_check := wrap8 s.stack_pointer
  let s := s.flag_toggle (decide ((carry_check &&& 0xF0) < (offset_lsb &&& 0xFF))) H_HALF_CARRY_FLAG
  let s := s.flag_toggle (decide (carry_check < offset_lsb)) C_CARRY_FLAG
  let s := s.flag_toggle false (Z_ZERO_FLAG ||| N_SUBTRACTION_FLAG)
  s.finish_instruction 2 16

/-- JP HL (0o351). -/
def GBConsole.exec_jp_hl (s : GBConsole) : Option (GBConsole × Nat) :=
  GBConsole.finish_instruction {s with program_counter := u16be s.h s.l} 0 4

/-- LDH A, [a8] (0o360): 12 cycles, 2 bytes. -/
def GBConsole.exec_ldh_a_a8 (s : GBConsole) : Option (GBConsole × Nat) := do
  let offset ← s.read (wrap16 (s.program_counter + 1))
  let value ← s.read (u16be 0xFF offset)
  GBConsole.finish_instruction {s with a := value} 2 12

/-- LD HL, SP + e8 (0o370): 12 cycles, 2 bytes. -/
def GBConsole.exec_ld_hl_sp_e8 (s : GBConsole) : Option (GBConsole × Nat) := do
  let offset_lsb ← s.read (wrap16 (s.program_counter + 1))
  let offset := if offset_lsb &&& 0x80 = 0 then u16be 0x00 offset_lsb else u16be 0xFF offset_lsb
  let new_pointer := wrap16 (s.stack_pointer + offset)
  let s := {s with h := new_pointer >>> 8, l := wrap8 new_pointer}
  let carry_check := wrap8 new_pointer
  let s := s.flag_toggle (decide ((carry_check &&& 0xF0) < (offset_lsb &&& 0xFF))) H_HALF_CARRY_FLAG
  let s := s.flag_toggle (decide (carry_check < offset_lsb)) C_CARRY_FLAG
  let s := s.flag_toggle false (Z_ZERO_FLAG ||| N_SUBTRACTION_FLAG)
  s.finish_instruction 2 12

/-- LD SP, HL (0o371): 8 cycles. -/
def GBConsole.exec_ld_sp_hl (s : GBConsole) : Option (GBConsole × Nat) :=
  GBConsole.finish_instruction {s with stack_pointer := u16be s.h s.l} 1 8

/-- JR e8 | JR cc, e8 (block 0, column 0): 12 cycles taken, 8 not taken. -/
def GBConsole.exec_jr (s : GBConsole) (opcode : Nat) : Option (GBConsole × Nat) := do
  let jump_condition ←
    if opcode &&& 0o070 = 0o030 then some true
    else if opcode &&& 0o070 = 0o040 then some (decide (s.flags &&& Z_ZERO_FLAG = 0))
    else if opcode &&& 0o070 = 0o050 then some (decide (s.flags &&& Z_ZERO_FLAG > 0))
    else if opcode &&& 0o070 = 0o060 then some (decide (s.flags &&& C_CARRY_FLAG = 0))
    else if opcode &&& 0o070 = 0o070 then some (decide (s.flags &&& C_CARRY_FLAG > 0))
    else none
  if jump_condition then do
    let jump_offset_u8 ← s.read (wrap16 (s.program_counter + 1))
    let instruction_size :=
      if jump_offset_u8 ≥ 0x80 then u16be 0xFF jump_offset_u8 else u16be 0 jump_offset_u8
    s.finish_instruction (instruction_size + 2) 12
  else
    s.finish_instruction 2 8

/-- LD r16, n16 | LD SP, n16 | ADD HL, r16 | ADD HL, SP (block 0, column 1). -/
def GBConsole.exec_ld16_add16 (s : GBConsole) (opcode : Nat) : Option (GBConsole × Nat) := do
  let value ←
    if opcode &&& 0o010 = 0 then s.read_16 (wrap16 (s.program_counter + 1))
    else some (u16be s.h s.l)
  if opcode &&& 0o010 = 0 then
    if opcode &&& 0o060 = 0o000 then GBConsole.finish_instruction {s with b := value >>> 8, c := wrap8 value} 3 12
    else if opcode &&& 0o060 = 0o020 then GBConsole.finish_instruction {s with d := value >>> 8, e := wrap8 value} 3 12
    else if opcode &&& 0o060 = 0o040 then GBConsole.finish_instruction {s with h := value >>> 8, l := wrap8 value} 3 12
    else if opcode &&& 0o060 = 0o060 then GBConsole.finish_instruction {s with stack_pointer := value} 3 12
    else none
  else do
    let hl_now ←
      if opcode &&& 0o060 = 0o000 then some (wrap16 (value + u16be s.b s.c))
      else if opcode &&& 0o060 = 0o020 then some (wrap16 (value + u16be s.d s.e))
      else if opcode &&& 0o060 = 0o040 then some (wrap16 (value + u16be s.h s.l))
      else if opcode &&& 0o060 = 0o060 then some (wrap16 (value + s.stack_pointer))
      else none
    let s := {s with h := hl_now >>> 8, l := wrap8 hl_now}
    let s := s.flag_toggle false N_SUBTRACTION_FLAG
    let s := s.flag_toggle (decide ((value &&& 0x0FFF) > (hl_now &&& 0x0FFF))) H_HALF_CARRY_FLAG
    let s := s.flag_toggle (decide (value > hl_now)) C_CARRY_FLAG
    s.finish_instruction 1 8

/-- LD [r16], A | LD A, [r16] with the HL+ / HL- post-updates (block 0, column 2). -/
def GBConsole.exec_ld_indirect (s : GBConsole) (opcode : Nat) : Option (GBConsole × Nat) := do
  let (s, address) ←
    if opcode &&& 0o060 = 0o000 then some (s, u16be s.b s.c)
    else if opcode &&& 0o060 = 0o020 then some (s, u16be s.d s.e)
    else if opcode &&& 0o060 = 0o040 then
      let address_temp := u16be s.h s.l
      let v := wrap16 (address_temp + 1)
      some ({s with h := v >>> 8, l := wrap8 v}, address_temp)
    else if opcode &&& 0o060 = 0o060 then
      let address_temp := u16be s.h s.l
      let v := sub16 address_temp 1
      some ({s with h := v >>> 8, l := wrap8 v}, address_temp)
    else none
  if opcode &&& 0o010 > 0 then do
    let value ← s.read address
    GBConsole.finish_instruction {s with a := value} 1 8
  else do
    let s ← s.write address s.a
    s.finish_instruction 1 8

/-- INC r16 | INC SP | DEC r16 | DEC SP (block 0, column 3): 8 cycles. -/
def GBConsole.exec_incdec16 (s : GBConsole) (opcode : Nat) : Option (GBConsole × Nat) :=
  let incrementor := if opcode &&& 0o010 = 0 then 1 else 65535
  if opcode &&& 0o060 = 0o000 then
    let v := wrap16 (u16be s.b s.c + incrementor)
    GBConsole.finish_instruction {s with b := v >>> 8, c := wrap8 v} 1 8
  else if opcode &&& 0o060 = 0o020 then
    let v := wrap16 (u16be s.d s.e + incrementor)
    GBConsole.finish_instruction {s with d := v >>> 8, e := wrap8 v} 1 8
  else if opcode &&& 0o060 = 0o040 then
    let v := wrap16 (u16be s.h s.l + incrementor)
    GBConsole.finish_instruction {s with h := v >>> 8, l := wrap8 v} 1 8
  else if opcode &&& 0o060 = 0o060 then
    GBConsole.finish_instruction {s with stack_pointer := wrap16 (s.stack_pointer + incrementor)} 1 8
  else none

/-- INC r8 | INC [HL] | DEC r8 | DEC [HL] (block 0, columns 4 and 5); the source
sets the subtraction flag when the incrementor is 1. -/
def GBConsole.exec_incdec8 (s : GBConsole) (opcode : Nat) : Option (GBConsole × Nat) :=
  let incrementor := if opcode &&& 0o007 = 0o004 then 1 else 255
  let cont := fun (s : GBConsole) (register_before register_after cycle_count : Nat) =>
    let s := s.flag_toggle (decide (register_after = 0)) Z_ZERO_FLAG
    let s := s.flag_toggle (decide (incrementor = 1)) N_SUBTRACTION_FLAG
    let half_carry_condition :=
      if incrementor = 1 then
        decide ((register_before &&& 0b1111 > 0) ∧ (register_after &&& 0b1111 = 0))
      else
        decide ((register_before &&& 0b1111 = 0) ∧ (register_after &&& 0b1111 > 0))
    let s := s.flag_toggle half_carry_condition H_HALF_CARRY_FLAG
    s.finish_instruction 1 cycle_count
  if opcode &&& 0o070 = 0o060 then do
    let address := u16be s.h s.l
    let register_before ← s.read address
    let value := add8 register_before incrementor
    let s ← s.write address value
    cont s register_before value 12
  else do
    let register_before ← s.reg8_get ((opcode &&& 0o070) >>> 3)
    let register_after := add8 register_before incrementor
    let s ← s.reg8_set ((opcode &&& 0o070) >>> 3) register_after
    cont s register_before register_after 4

/-- LD r8, n8 | LD [HL], n8 (block 0, column 6). -/
def GBConsole.exec_ld8_imm (s : GBConsole) (opcode : Nat) : Option (GBConsole × Nat) := do
  let value ← s.read (wrap16 (s.program_counter + 1))
  if opcode &&& 0o070 = 0o060 then do
    let s ← s.write (u16be s.h s.l) value
    s.finish_instruction 2 12
  else do
    let s ← s.reg8_set ((opcode &&& 0o070) >>> 3) value
    s.finish_instruction 2 8

/-- Block 1: LD r8, r8 | LD r8, [HL] | LD [HL], r8 (8 cycles when HL is involved). -/
def GBConsole.exec_ld_r8_r8 (s : GBConsole) (opcode : Nat) : Option (GBConsole × Nat) := do
  let (source, cycle_count) ←
    if opcode &&& 0o007 = 0o006 then (s.read (u16be s.h s.l)).map (fun v => (v, 8))
    else (s.reg8_get (opcode &&& 0o007)).map (fun v => (v, 4))
  if opcode &&& 0o070 = 0o060 then do
    let s ← s.write (u16be s.h s.l) source
    s.finish_instruction 1 8
  else do
    let s ← s.reg8_set ((opcode &&& 0o070) >>> 3) source
    s.finish_instruction 1 cycle_count

/-- Block 2: the ALU operation against a register or indirect-HL operand. -/
def GBConsole.exec_alu_r8 (s : GBConsole) (opcode : Nat) : Option (GBConsole × Nat) := do
  let (operand, cycle_count) ←
    if opcode &&& 0o007 = 0o006 then (s.read (u16be s.h s.l)).map (fun v => (v, 8))
    else (s.reg8_get (opcode &&& 0o007)).map (fun v => (v, 4))
  let s ← s.alu_op (opcode &&& 0o070) operand
  s.finish_instruction 1 cycle_count

/-- RET cc (block 3, column 0): 20 cycles taken, 8 not taken. -/
def GBConsole.exec_ret_cc (s : GBConsole) (opcode : Nat) : Option (GBConsole × Nat) := do
  let return_condition ← s.condition_check (opcode &&& 0o030)
  if return_condition then do
    let target ← s.read_16 s.stack_pointer
    GBConsole.finish_instruction
      {s with program_counter := target, stack_pointer := wrap16 (s.stack_pointer + 2)} 0 20
  else
    s.finish_instruction 1 8

/-- POP r16 | POP AF (block 3, column 1): 12 cycles; the low flag nibble is
masked off after every pop. -/
def GBConsole.exec_pop (s : GBConsole) (opcode : Nat) : Option (GBConsole × Nat) := do
  let popped_value ← s.read_16 s.stack_pointer
  let s := {s with stack_pointer := wrap16 (s.stack_pointer + 2)}
  let s ←
    if opcode &&& 0o060 = 0o000 then some {s with b := popped_value >>> 8, c := wrap8 popped_value}
    else if opcode &&& 0o060 = 0o020 then some {s with d := popped_value >>> 8, e := wrap8 popped_value}
    else if opcode &&& 0o060 = 0o040 then some {s with h := popped_value >>> 8, l := wrap8 popped_value}
    else if opcode &&& 0o060 = 0o060 then some {s with a := popped_value >>> 8, flags := wrap8 popped_value}
    else none
  GBConsole.finish_instruction {s with flags := s.flags &&& 0xF0} 1 12

/-- LDH [C], A | LD [a16], A | LDH A, [C] | LD A, [a16] (block 3, column 2 with
the high condition field). -/
def GBConsole.exec_ldh_c_a16 (s : GBConsole) (opcode : Nat) : Option (GBConsole × Nat) := do
  let (address, cycle_count, instruction_size) ←
    if opcode &&& 0o010 = 0 then some (u16be 0xFF s.c, 8, 1)
    else (s.read_16 (wrap16 (s.program_counter + 1))).map (fun a => (a, 16, 3))
  if opcode &&& 0o020 = 0 then do
    let s ← s.write address s.a
    s.finish_instruction instruction_size cycle_count
  else do
    let value ← s.read address
    GBConsole.finish_instruction {s with a := value} instruction_size cycle_count

/-- JP cc (block 3, column 2 with the low condition field): 16 cycles taken, 12
not taken. -/
def GBConsole.exec_jp_cc (s : GBConsole) (opcode : Nat) : Option (GBConsole × Nat) := do
  let jump_condition ← s.condition_check (opcode &&& 0o030)
  if jump_condition then do
    let target ← s.read_16 (wrap16 (s.program_counter + 1))
    GBConsole.finish_instruction {s with program_counter := target} 0 16
  else
    s.finish_instruction 3 12

/-- CALL cc (block 3, column 4): 24 cycles taken, 12 not taken. -/
def GBConsole.exec_call_cc (s : GBConsole) (opcode : Nat) : Option (GBConsole × Nat) := do
  let jump_condition ← s.condition_check (opcode &&& 0o030)
  if jump_condition then do
    let s := {s with stack_pointer := sub16 s.stack_pointer 2}
    let s ← s.write_16 s.stack_pointer (wrap16 (s.program_counter + 3))
    let target ← s.read_16 (wrap16 (s.program_counter + 1))
    GBConsole.finish_instruction {s with program_counter := target} 0 24
  else
    s.finish_instruction 3 12

/-- PUSH r16 | PUSH AF (block 3, column 5): 16 cycles. -/
def GBConsole.exec_push (s : GBConsole) (opcode : Nat) : Option (GBConsole × Nat) := do
  let pushed_value ←
    if opcode &&& 0o060 = 0o000 then some (u16be s.b s.c)
    else if opcode &&& 0o060 = 0o020 then some (u16be s.d s.e)
    else if opcode &&& 0o060 = 0o040 then some (u16be s.h s.l)
    else if opcode &&& 0o060 = 0o060 then some (u16be s.a s.flags)
    else none
  let s := {s with stack_pointer := sub16 s.stack_pointer 2}
  let s ← s.write_16 s.stack_pointer pushed_value
  s.finish_instruction 1 16

/-- The immediate ALU column (block 3, column 6); the source leaves the cycle
count at the default 4 (the documented count is 8). -/
def GBConsole.exec_alu_imm (s : GBConsole) (opcode : Nat) : Option (GBConsole × Nat) := do
  let operand ← s.read (wrap16 (s.program_counter + 1))
  let s ← s.alu_op (opcode &&& 0o070) operand
  s.finish_instruction 2 4

/-- RST vec (block 3, column 7); the source leaves the cycle count at the
default 4 (the documented count is 16). -/
def GBConsole.exec_rst (s : GBConsole) (opcode : Nat) : Option (GBConsole × Nat) := do
  let jump_address_vector ←
    if opcode &&& 0o070 = 0o000 then some 0x00
    else if opcode &&& 0o070 = 0o010 then some 0x08
    else if opcode &&& 0o070 = 0o020 then some 0x10
    else if opcode &&& 0o070 = 0o030 then some 0x18
    else if opcode &&& 0o070 = 0o040 then some 0x20
    else if opcode &&& 0o070 = 0o050 then some 0x28
    else if opcode &&& 0o070 = 0o060 then some 0x30
    else if opcode &&& 0o070 = 0o070 then some 0x38
    else none
  let return_address := wrap16 (s.program_counter + 1)
  let s := {s with stack_pointer := sub16 s.stack_pointer 2}
  let s ← s.write_16 s.stack_pointer return_address
  GBConsole.finish_instruction {s with program_counter := jump_address_vector} 0 4

/-- GBConsole::execute_instruction.  One-off opcodes first (including the
explicitly invalid ones, which panic), then the bit-field-pattern blocks; each
arm of the source match is the correspondingly named definition above.  The
defaults are instruction_size 1 and cycle_count 4 (NOP and the unimplemented
STOP use them directly). -/
def GBConsole.execute_instruction (s : GBConsole) : Option (GBConsole × Nat) := do
  let opcode ← s.read s.program_counter
  if opcode = 0o000 then s.finish_instruction 1 4
  else if opcode = 0o010 then s.exec_ld_a16_sp
  else if opcode = 0o020 then s.finish_instruction 1 4
  else if opcode = 0o007 then s.exec_rlca
  else if opcode = 0o017 then s.exec_rrca
  else if opcode = 0o027 then s.exec_rla
  else if opcode = 0o037 then s.exec_rra
  else if opcode = 0o047 then s.exec_daa
  else if opcode = 0o057 then s.exec_cpl
  else if opcode = 0o067 then s.exec_scf
  else if opcode = 0o077 then s.exec_ccf
  else if opcode = 0o166 then s.exec_halt
  else if opcode = 0o303 then s.exec_jp_a16
  else if opcode = 0o311 then s.exec_ret
  else if opcode = 0o313 then do
    let (s, cycle_count) ← s.execute_prefixed_instruction
    s.finish_instruction 2 cycle_count
  else if opcode = 0o315 then s.exec_call_a16
  else if opcode = 0o331 then s.exec_reti
  else if opcode = 0o340 then s.exec_ldh_a8_a
  else if opcode = 0o350 then s.exec_add_sp_e8
  else if opcode = 0o351 then s.exec_jp_hl
  else if opcode = 0o360 then s.exec_ldh_a_a8
  else if opcode = 0o363 then
    GBConsole.finish_instruction {s with interrupt_master_enable_flag := IMEState.Disabled} 1 4
  else if opcode = 0o370 then s.exec_ld_hl_sp_e8
  else if opcode = 0o371 then s.exec_ld_sp_hl
  else if opcode = 0o373 then
    GBConsole.finish_instruction {s with interrupt_master_enable_flag := IMEState.Pending} 1 4
  else if opcode = 0o323 ∨ opcode = 0o333 ∨ opcode = 0o335 ∨ opcode = 0o343 ∨ opcode = 0o344 ∨
      opcode = 0o353 ∨ opcode = 0o354 ∨ opcode = 0o355 ∨ opcode = 0o364 ∨ opcode = 0o374 ∨
      opcode = 0o375 then
    none
  else if opcode &&& 0o300 = 0o000 then
    if opcode &&& 0o007 = 0o000 then s.exec_jr opcode
    else if opcode &&& 0o007 = 0o001 then s.exec_ld16_add16 opcode
    else if opcode &&& 0o007 = 0o002 then s.exec_ld_indirect opcode
    else if opcode &&& 0o007 = 0o003 then s.exec_incdec16 opcode
    else if opcode &&& 0o007 = 0o004 ∨ opcode &&& 0o007 = 0o005 then s.exec_incdec8 opcode
    else if opcode &&& 0o007 = 0o006 then s.exec_ld8_imm opcode
    else none
  else if opcode &&& 0o300 = 0o100 then s.exec_ld_r8_r8 opcode
  else if opcode &&& 0o300 = 0o200 then s.exec_alu_r8 opcode
  else if opcode &&& 0o300 = 0o300 then
    if opcode &&& 0o007 = 0o000 then s.exec_ret_cc opcode
    else if opcode &&& 0o007 = 0o001 then s.exec_pop opcode
    else if opcode &&& 0o007 = 0o002 then
      if opcode &&& 0o070 ≥ 0o040 then s.exec_ldh_c_a16 opcode
      else s.exec_jp_cc opcode
    else if opcode &&& 0o007 = 0o004 then s.exec_call_cc opcode
    else if opcode &&& 0o007 = 0o005 then s.exec_push opcode
    else if opcode &&& 0o007 = 0o006 then s.exec_alu_imm opcode
    else if opcode &&& 0o007 = 0o007 then s.exec_rst opcode
    else none
  else none

/-! ## Concrete fixture consoles, mappers and PPU states used by the claim theorems -/

def romXorHalt : Nat → Nat := fun a => if a = 0x100 then 0xAF else if a = 0x101 then 0x76 else 0

def cXor : GBConsole := GBConsole.new (Mapper.noMBC ⟨romXorHalt, none⟩)

def romCall : Nat → Nat := fun a => if a = 0x100 then 0xCD else 0

def cCall : GBConsole := GBConsole.new (Mapper.noMBC ⟨romCall, none⟩)

def mb2 : MBC1 := ⟨[fun _ => 0, fun _ => 17], 1, none, 0, false, none, false⟩

def tA : GBConsole :=
  {cXor with
    timer_control := 0b101
    timer_counter := 255
    timer_modulo := 23
    timer_divider := 2
    timer_overflowed := false
    interrupt_flag := 0}

def tB : GBConsole :=
  {tA with
    timer_overflowed := true
    timer_modulo := 255}

def pMode3 : PPU := {PPU.new with ppu_mode := 3}

def pMode2 : PPU := {PPU.new with ppu_mode := 2}

def cW1 : GBConsole := {cXor with working_ram := updf cXor.working_ram (0xC123 - 0xC000) 77}

def cXorA : GBConsole := {cXor with a := 0, flags := 0x80, program_counter := 0x101}

def cXorB : GBConsole := {cXorA with program_counter := 0x102}

def cCallP : GBConsole :=
  {cCall with
    stack_pointer := 0xFFFC
    high_ram := updf (updf cCall.high_ram 0x7C 3) 0x7D 1}

def iEx : GBConsole :=
  {cXor with
    stack_pointer := 1
    interrupt_master_enable_flag := IMEState.Enabled
    interrupt_enable := 1}

def iOk : GBConsole :=
  {cXor with
    interrupt_master_enable_flag := IMEState.Enabled
    interrupt_enable := 4
    interrupt_flag := 0xE4}

def iOkP : GBConsole :=
  {iOk with
    stack_pointer := 0xFFFC
    high_ram := updf (updf iOk.high_ram 0x7C 0) 0x7D 1}

/-! ## Helper lemmas -/

/-- Reducing mod 16 is masking with 15. -/
theorem mod16_eq_and15 (x : Nat) : x % 16 = x &&& 15 := by
  have := Nat.and_pow_two_sub_one_eq_mod x 4
  norm_num at this
  omega

theorem mod16_or (a b : Nat) : (a ||| b) % 16 = a % 16 ||| b % 16 := by
  rw [mod16_eq_and15, mod16_eq_and15, mod16_eq_and15]
  apply Nat.eq_of_testBit_eq
  intro i
  simp [Nat.testBit_and, Nat.testBit_or, Bool.and_or_distrib_right]

theorem mod16_and (a b : Nat) : (a &&& b) % 16 = a % 16 &&& b % 16 := by
  rw [mod16_eq_and15, mod16_eq_and15, mod16_eq_and15]
  apply Nat.eq_of_testBit_eq
  intro i
  simp [Nat.testBit_and]
  cases a.testBit i <;> cases b.testBit i <;> simp

theorem lownib_or {a b : Nat} (ha : a % 16 = 0) (hb : b % 16 = 0) : (a ||| b) % 16 = 0 := by
  rw [mod16_or, ha, hb]
  simp

theorem lownib_and_left {a : Nat} (b : Nat) (ha : a % 16 = 0) : (a &&& b) % 16 = 0 := by
  rw [mod16_and, ha]
  simp

theorem lownib_and_right (a : Nat) {b : Nat} (hb : b % 16 = 0) : (a &&& b) % 16 = 0 := by
  rw [mod16_and, hb]
  simp

theorem flag_toggle_lownib {s : GBConsole} (c : Bool) {f : Nat} (hf : f % 16 = 0)
    (hs : s.flags % 16 = 0) : (s.flag_toggle c f).flags % 16 = 0 := by
  unfold GBConsole.flag_toggle
  cases c <;> simp
  · exact lownib_and_left _ hs
  · exact lownib_or hs hf

/-- Monadic Option bind inverted: the building block for reasoning about the
do-notation chains of the embedding. -/
theorem optionBind_eq_some {α β : Type} {x : Option α} {f : α → Option β} {b : β} :
    (x >>= f) = some b ↔ ∃ a, x = some a ∧ f a = some b := by
  cases x <;> simp

/-- Bind of a literal some reduces. -/
theorem optionBind_some {α β : Type} (a : α) (f : α → Option β) : (some a >>= f) = f a := rfl

/-- Bind of a literal none reduces. -/
theorem optionBind_none {α β : Type} (f : α → Option β) : ((none : Option α) >>= f) = none := rfl

/-- Do-notation elaborates to Bind.bind; same destructuring lemma in that form. -/
theorem optionBindB_eq_some {α β : Type} {x : Option α} {f : α → Option β} {b : β} :
    Bind.bind x f = some b ↔ ∃ a, x = some a ∧ f a = some b := by
  cases x <;> simp

/-- Bind.bind of a literal some reduces. -/
theorem optionBindB_some {α β : Type} (a : α) (f : α → Option β) :
    Bind.bind (some a) f = f a := rfl

/-- Bind.bind of a literal none reduces. -/
theorem optionBindB_none {α β : Type} (f : α → Option β) :
    Bind.bind (none : Option α) f = (none : Option β) := rfl

/-- An I/O-register write never changes the CPU flags register. -/
theorem write_io_flags {s : GBConsole} {address value : Nat} {s₂ : GBConsole}
    (h : s.write_io address value = some s₂) : s₂.flags = s.flags := by
  unfold GBConsole.write_io at h
  by_cases hc0 : address = 0xFF00
  · rw [if_pos hc0] at h
    first
      | (simp only [Option.some.injEq] at h; subst h; rfl)
      | (simp only [Option.map_eq_some'] at h
         obtain ⟨p, _hp, h⟩ := h
         subst h; rfl)
      | (split at h <;>
          first
          | exact Option.noConfusion h
          | (simp only [Option.some.injEq] at h; subst h; rfl)
          | (split at h <;>
              first
              | exact Option.noConfusion h
              | (simp only [Option.some.injEq] at h; subst h; rfl)))
  · rw [if_neg hc0] at h
    by_cases hc1 : address = 0xFF01
    · rw [if_pos hc1] at h
      first
        | (simp only [Option.some.injEq] at h; subst h; rfl)
        | (simp only [Option.map_eq_some'] at h
           obtain ⟨p, _hp, h⟩ := h
           subst h; rfl)
        | (split at h <;>
            first
            | exact Option.noConfusion h
            | (simp only [Option.some.injEq] at h; subst h; rfl)
            | (split at h <;>
                first
                | exact Option.noConfusion h
                | (simp only [Option.some.injEq] at h; subst h; rfl)))
    · rw [if_neg hc1] at h
      by_cases hc2 : address = 0xFF02
      · rw [if_pos hc2] at h
        first
          | (simp only [Option.some.injEq] at h; subst h; rfl)
          | (simp only [Option.map_eq_some'] at h
             obtain ⟨p, _hp, h⟩ := h
             subst h; rfl)
          | (split at h <;>
              first
              | exact Option.noConfusion h
              | (simp only [Option.some.injEq] at h; subst h; rfl)
              | (split at h <;>
                  first
                  | exact Option.noConfusion h
                  | (simp only [Option.some.injEq] at h; subst h; rfl)))
      · rw [if_neg hc2] at h
        by_cases hc3 : address = 0xFF04
        · rw [if_pos hc3] at h
          first
            | (simp only [Option.some.injEq] at h; subst h; rfl)
            | (simp only [Option.map_eq_some'] at h
               obtain ⟨p, _hp, h⟩ := h
               subst h; rfl)
            | (split at h <;>
                first
                | exact Option.noConfusion h
                | (simp only [Option.some.injEq] at h; subst h; rfl)
                | (split at h <;>
                    first
                    | exact Option.noConfusion h
                    | (simp only [Option.some.injEq] at h; subst h; rfl)))
        · rw [if_neg hc3] at h
          by_cases hc4 : address = 0xFF05
          · rw [if_pos hc4] at h
            first
              | (simp only [Option.some.injEq] at h; subst h; rfl)
              | (simp only [Option.map_eq_some'] at h
                 obtain ⟨p, _hp, h⟩ := h
                 subst h; rfl)
              | (split at h <;>
                  first
                  | exact Option.noConfusion h
                  | (simp only [Option.some.injEq] at h; subst h; rfl)
                  | (split at h <;>
                      first
                      | exact Option.noConfusion h
                      | (simp only [Option.some.injEq] at h; subst h; rfl)))
          · rw [if_neg hc4] at h
            by_cases hc5 : address = 0xFF06
            · rw [if_pos hc5] at h
              first
                | (simp only [Option.some.injEq] at h; subst h; rfl)
                | (simp only [Option.map_eq_some'] at h
                   obtain ⟨p, _hp, h⟩ := h
                   subst h; rfl)
                | (split at h <;>
                    first
                    | exact Option.noConfusion h
                    | (simp only [Option.some.injEq] at h; subst h; rfl)
                    | (split at h <;>
                        first
                        | exact Option.noConfusion h
                        | (simp only [Option.some.injEq] at h; subst h; rfl)))
            · rw [if_neg hc5] at h
              by_cases hc6 : address = 0xFF07
              · rw [if_pos hc6] at h
                first
                  | (simp only [Option.some.injEq] at h; subst h; rfl)
                  | (simp only [Option.map_eq_some'] at h
                     obtain ⟨p, _hp, h⟩ := h
                     subst h; rfl)
                  | (split at h <;>
                      first
                      | exact Option.noConfusion h
                      | (simp only [Option.some.injEq] at h; subst h; rfl)
                      | (split at h <;>
                          first
                          | exact Option.noConfusion h
                          | (simp only [Option.some.injEq] at h; subst h; rfl)))
              · rw [if_neg hc6] at h
                by_cases hc7 : address = 0xFF0F
                · rw [if_pos hc7] at h
                  first
                    | (simp only [Option.some.injEq] at h; subst h; rfl)
                    | (simp only [Option.map_eq_some'] at h
                       obtain ⟨p, _hp, h⟩ := h
                       subst h; rfl)
                    | (split at h <;>
                        first
                        | exact Option.noConfusion h
                        | (simp only [Option.some.injEq] at h; subst h; rfl)
                        | (split at h <;>
                            first
                            | exact Option.noConfusion h
                            | (simp only [Option.some.injEq] at h; subst h; rfl)))
                · rw [if_neg hc7] at h
                  by_cases hc8 : address = 0xFF46
                  · rw [if_pos hc8] at h
                    first
                      | (simp only [Option.some.injEq] at h; subst h; rfl)
                      | (simp only [Option.map_eq_some'] at h
                         obtain ⟨p, _hp, h⟩ := h
                         subst h; rfl)
                      | (split at h <;>
                          first
                          | exact Option.noConfusion h
                          | (simp only [Option.some.injEq] at h; subst h; rfl)
                          | (split at h <;>
                              first
                              | exact Option.noConfusion h
                              | (simp only [Option.some.injEq] at h; subst h; rfl)))
                  · rw [if_neg hc8] at h
                    by_cases hc9 : 0xFF10 ≤ address ∧ address < 0xFF27
                    · rw [if_pos hc9] at h
                      first
                        | (simp only [Option.some.injEq] at h; subst h; rfl)
                        | (simp only [Option.map_eq_some'] at h
                           obtain ⟨p, _hp, h⟩ := h
                           subst h; rfl)
                        | (split at h <;>
                            first
                            | exact Option.noConfusion h
                            | (simp only [Option.some.injEq] at h; subst h; rfl)
                            | (split at h <;>
                                first
                                | exact Option.noConfusion h
                                | (simp only [Option.some.injEq] at h; subst h; rfl)))
                    · rw [if_neg hc9] at h
                      by_cases hc10 : 0xFF30 ≤ address ∧ address < 0xFF40
                      · rw [if_pos hc10] at h
                        first
                          | (simp only [Option.some.injEq] at h; subst h; rfl)
                          | (simp only [Option.map_eq_some'] at h
                             obtain ⟨p, _hp, h⟩ := h
                             subst h; rfl)
                          | (split at h <;>
                              first
                              | exact Option.noConfusion h
                              | (simp only [Option.some.injEq] at h; subst h; rfl)
                              | (split at h <;>
                                  first
                                  | exact Option.noConfusion h
                                  | (simp only [Option.some.injEq] at h; subst h; rfl)))
                      · rw [if_neg hc10] at h
                        by_cases hc11 : address = 0xFF47
                        · rw [if_pos hc11] at h
                          first
                            | (simp only [Option.some.injEq] at h; subst h; rfl)
                            | (simp only [Option.map_eq_some'] at h
                               obtain ⟨p, _hp, h⟩ := h
                               subst h; rfl)
                            | (split at h <;>
                                first
                                | exact Option.noConfusion h
                                | (simp only [Option.some.injEq] at h; subst h; rfl)
                                | (split at h <;>
                                    first
                                    | exact Option.noConfusion h
                                    | (simp only [Option.some.injEq] at h; subst h; rfl)))
                        · rw [if_neg hc11] at h
                          by_cases hc12 : address = 0xFF48
                          · rw [if_pos hc12] at h
                            first
                              | (simp only [Option.some.injEq] at h; subst h; rfl)
                              | (simp only [Option.map_eq_some'] at h
                                 obtain ⟨p, _hp, h⟩ := h
                                 subst h; rfl)
                              | (split at h <;>
                                  first
                                  | exact Option.noConfusion h
                                  | (simp only [Option.some.injEq] at h; subst h; rfl)
                                  | (split at h <;>
                                      first
                                      | exact Option.noConfusion h
                                      | (simp only [Option.some.injEq] at h; subst h; rfl)))
                          · rw [if_neg hc12] at h
                            by_cases hc13 : address = 0xFF49
                            · rw [if_pos hc13] at h
                              first
                                | (simp only [Option.some.injEq] at h; subst h; rfl)
                                | (simp only [Option.map_eq_some'] at h
                                   obtain ⟨p, _hp, h⟩ := h
                                   subst h; rfl)
                                | (split at h <;>
                                    first
                                    | exact Option.noConfusion h
                                    | (simp only [Option.some.injEq] at h; subst h; rfl)
                                    | (split at h <;>
                                        first
                                        | exact Option.noConfusion h
                                        | (simp only [Option.some.injEq] at h; subst h; rfl)))
                            · rw [if_neg hc13] at h
                              by_cases hc14 : (0xFF40 ≤ address ∧ address < 0xFF46) ∨ address = 0xFF4A ∨ address = 0xFF4B
                              · rw [if_pos hc14] at h
                                first
                                  | (simp only [Option.some.injEq] at h; subst h; rfl)
                                  | (simp only [Option.map_eq_some'] at h
                                     obtain ⟨p, _hp, h⟩ := h
                                     subst h; rfl)
                                  | (split at h <;>
                                      first
                                      | exact Option.noConfusion h
                                      | (simp only [Option.some.injEq] at h; subst h; rfl)
                                      | (split at h <;>
                                          first
                                          | exact Option.noConfusion h
                                          | (simp only [Option.some.injEq] at h; subst h; rfl)))
                              · rw [if_neg hc14] at h
                                by_cases hc15 : address = 0xFF4D
                                · rw [if_pos hc15] at h
                                  first
                                    | (simp only [Option.some.injEq] at h; subst h; rfl)
                                    | (simp only [Option.map_eq_some'] at h
                                       obtain ⟨p, _hp, h⟩ := h
                                       subst h; rfl)
                                    | (split at h <;>
                                        first
                                        | exact Option.noConfusion h
                                        | (simp only [Option.some.injEq] at h; subst h; rfl)
                                        | (split at h <;>
                                            first
                                            | exact Option.noConfusion h
                                            | (simp only [Option.some.injEq] at h; subst h; rfl)))
                                · rw [if_neg hc15] at h
                                  by_cases hc16 : address = 0xFF4F
                                  · rw [if_pos hc16] at h
                                    first
                                      | (simp only [Option.some.injEq] at h; subst h; rfl)
                                      | (simp only [Option.map_eq_some'] at h
                                         obtain ⟨p, _hp, h⟩ := h
                                         subst h; rfl)
                                      | (split at h <;>
                                          first
                                          | exact Option.noConfusion h
                                          | (simp only [Option.some.injEq] at h; subst h; rfl)
                                          | (split at h <;>
                                              first
                                              | exact Option.noConfusion h
                                              | (simp only [Option.some.injEq] at h; subst h; rfl)))
                                  · rw [if_neg hc16] at h
                                    by_cases hc17 : 0xFF51 ≤ address ∧ address < 0xFF56
                                    · rw [if_pos hc17] at h
                                      first
                                        | (simp only [Option.some.injEq] at h; subst h; rfl)
                                        | (simp only [Option.map_eq_some'] at h
                                           obtain ⟨p, _hp, h⟩ := h
                                           subst h; rfl)
                                        | (split at h <;>
                                            first
                                            | exact Option.noConfusion h
                                            | (simp only [Option.some.injEq] at h; subst h; rfl)
                                            | (split at h <;>
                                                first
                                                | exact Option.noConfusion h
                                                | (simp only [Option.some.injEq] at h; subst h; rfl)))
                                    · rw [if_neg hc17] at h
                                      by_cases hc18 : address = 0xFF56
                                      · rw [if_pos hc18] at h
                                        first
                                          | (simp only [Option.some.injEq] at h; subst h; rfl)
                                          | (simp only [Option.map_eq_some'] at h
                                             obtain ⟨p, _hp, h⟩ := h
                                             subst h; rfl)
                                          | (split at h <;>
                                              first
                                              | exact Option.noConfusion h
                                              | (simp only [Option.some.injEq] at h; subst h; rfl)
                                              | (split at h <;>
                                                  first
                                                  | exact Option.noConfusion h
                                                  | (simp only [Option.some.injEq] at h; subst h; rfl)))
                                      · rw [if_neg hc18] at h
                                        by_cases hc19 : 0xFF68 ≤ address ∧ address < 0xFF6D
                                        · rw [if_pos hc19] at h
                                          first
                                            | (simp only [Option.some.injEq] at h; subst h; rfl)
                                            | (simp only [Option.map_eq_some'] at h
                                               obtain ⟨p, _hp, h⟩ := h
                                               subst h; rfl)
                                            | (split at h <;>
                                                first
                                                | exact Option.noConfusion h
                                                | (simp only [Option.some.injEq] at h; subst h; rfl)
                                                | (split at h <;>
                                                    first
                                                    | exact Option.noConfusion h
                                                    | (simp only [Option.some.injEq] at h; subst h; rfl)))
                                        · rw [if_neg hc19] at h
                                          by_cases hc20 : address = 0xFF70
                                          · rw [if_pos hc20] at h
                                            first
                                              | (simp only [Option.some.injEq] at h; subst h; rfl)
                                              | (simp only [Option.map_eq_some'] at h
                                                 obtain ⟨p, _hp, h⟩ := h
                                                 subst h; rfl)
                                              | (split at h <;>
                                                  first
                                                  | exact Option.noConfusion h
                                                  | (simp only [Option.some.injEq] at h; subst h; rfl)
                                                  | (split at h <;>
                                                      first
                                                      | exact Option.noConfusion h
                                                      | (simp only [Option.some.injEq] at h; subst h; rfl)))
                                          · rw [if_neg hc20] at h
                                            by_cases hc21 : address = 0xFF76 ∨ address = 0xFF77
                                            · rw [if_pos hc21] at h
                                              first
                                                | (simp only [Option.some.injEq] at h; subst h; rfl)
                                                | (simp only [Option.map_eq_some'] at h
                                                   obtain ⟨p, _hp, h⟩ := h
                                                   subst h; rfl)
                                                | (split at h <;>
                                                    first
                                                    | exact Option.noConfusion h
                                                    | (simp only [Option.some.injEq] at h; subst h; rfl)
                                                    | (split at h <;>
                                                        first
                                                        | exact Option.noConfusion h
                                                        | (simp only [Option.some.injEq] at h; subst h; rfl)))
                                            · rw [if_neg hc21] at h
                                              simp only [Option.some.injEq] at h
                                              subst h; rfl

/-- A bus write never changes the CPU flags register. -/
theorem write_flags : ∀ (address : Nat) {s : GBConsole} {value : Nat} {s₂ : GBConsole},
    s.write address value = some s₂ → s₂.flags = s.flags := by
  intro address
  induction address using Nat.strong_induction_on with
  | _ address ih =>
    intro s value s₂ h
    unfold GBConsole.write at h
    by_cases hr1 : address < 0x8000
    · rw [dif_pos hr1] at h
      simp only [Option.map_eq_some'] at h
      obtain ⟨m, _hm, h⟩ := h
      subst h; rfl
    · rw [dif_neg hr1] at h
      by_cases hr2 : address < 0xA000
      · rw [dif_pos hr2] at h
        simp only [Option.map_eq_some'] at h
        obtain ⟨p, _hp, h⟩ := h
        subst h; rfl
      · rw [dif_neg hr2] at h
        by_cases hr3 : address < 0xC000
        · rw [dif_pos hr3] at h
          simp only [Option.map_eq_some'] at h
          obtain ⟨m, _hm, h⟩ := h
          subst h; rfl
        · rw [dif_neg hr3] at h
          by_cases hr4 : address < 0xD000
          · rw [dif_pos hr4] at h
            simp only [Option.some.injEq] at h
            subst h; rfl
          · rw [dif_neg hr4] at h
            by_cases hr5 : address < 0xE000
            · rw [dif_pos hr5] at h
              split at h
              · simp only [Option.some.injEq] at h
                subst h; rfl
              · exact Option.noConfusion h
            · rw [dif_neg hr5] at h
              by_cases hr6 : address < 0xFE00
              · rw [dif_pos hr6] at h
                exact ih _ (by omega) h
              · rw [dif_neg hr6] at h
                by_cases hr7 : address < 0xFEA0
                · rw [dif_pos hr7] at h
                  simp only [Option.map_eq_some'] at h
                  obtain ⟨p, _hp, h⟩ := h
                  subst h; rfl
                · rw [dif_neg hr7] at h
                  by_cases hr8 : address < 0xFF00
                  · rw [dif_pos hr8] at h
                    simp only [Option.some.injEq] at h
                    subst h; rfl
                  · rw [dif_neg hr8] at h
                    by_cases hr9 : address < 0xFF80
                    · rw [dif_pos hr9] at h
                      exact write_io_flags h
                    · rw [dif_neg hr9] at h
                      by_cases hr10 : address < 0xFFFF
                      · rw [dif_pos hr10] at h
                        simp only [Option.some.injEq] at h
                        subst h; rfl
                      · rw [dif_neg hr10] at h
                        simp only [Option.some.injEq] at h
                        subst h; rfl

/-- A 16-bit bus write never changes the CPU flags register. -/
theorem write_16_flags {s : GBConsole} {address value : Nat} {s₂ : GBConsole}
    (h : s.write_16 address value = some s₂) : s₂.flags = s.flags := by
  unfold GBConsole.write_16 at h
  split at h
  · exact Option.noConfusion h
  · rw [optionBind_eq_some] at h
    obtain ⟨s₁, h₁, h₂⟩ := h
    rw [write_flags _ h₂, write_flags _ h₁]

/-- finish_instruction preserves the flags register. -/
theorem finish_flags {s : GBConsole} {sz cy : Nat} {t : GBConsole} {n : Nat}
    (h : s.finish_instruction sz cy = some (t, n)) : t.flags = s.flags := by
  unfold GBConsole.finish_instruction at h
  simp only [Option.some.injEq, Prod.mk.injEq] at h
  obtain ⟨h, _⟩ := h
  subst h; rfl

/-- reg8_set preserves the flags register. -/
theorem reg8_set_flags {s : GBConsole} {sel v : Nat} {t : GBConsole}
    (h : s.reg8_set sel v = some t) : t.flags = s.flags := by
  unfold GBConsole.reg8_set at h
  repeat (any_goals (split at h))
  all_goals
    first
    | exact Option.noConfusion h
    | (simp only [Option.some.injEq] at h; subst h; rfl)

/-- alu_op keeps the low flag nibble clear. -/
theorem alu_op_lownib {s : GBConsole} {sel operand : Nat} {t : GBConsole}
    (hs : s.flags % 16 = 0) (h : s.alu_op sel operand = some t) : t.flags % 16 = 0 := by
  unfold GBConsole.alu_op at h
  repeat (any_goals (split at h))
  all_goals
    first
    | exact Option.noConfusion h
    | (simp only [Option.some.injEq] at h
       subst h
       try simp only []
       repeat
         first
         | exact hs
         | apply flag_toggle_lownib
         | decide
         | split)

theorem exec_jp_hl_flags {s t : GBConsole} {n : Nat}
    (h : s.exec_jp_hl = some (t, n)) : t.flags = s.flags := by
  unfold GBConsole.exec_jp_hl at h
  rw [finish_flags h]

theorem exec_ld_sp_hl_flags {s t : GBConsole} {n : Nat}
    (h : s.exec_ld_sp_hl = some (t, n)) : t.flags = s.flags := by
  unfold GBConsole.exec_ld_sp_hl at h
  rw [finish_flags h]

theorem exec_halt_flags {s t : GBConsole} {n : Nat}
    (h : s.exec_halt = some (t, n)) : t.flags = s.flags := by
  unfold GBConsole.exec_halt at h
  repeat (any_goals (split at h))
  all_goals rw [finish_flags h]

theorem exec_jp_a16_flags {s t : GBConsole} {n : Nat}
    (h : s.exec_jp_a16 = some (t, n)) : t.flags = s.flags := by
  unfold GBConsole.exec_jp_a16 at h
  rw [optionBind_eq_some] at h
  obtain ⟨x, _hx, h⟩ := h
  rw [finish_flags h]

theorem exec_ret_flags {s t : GBConsole} {n : Nat}
    (h : s.exec_ret = some (t, n)) : t.flags = s.flags := by
  unfold GBConsole.exec_ret at h
  rw [optionBind_eq_some] at h
  obtain ⟨x, _hx, h⟩ := h
  rw [finish_flags h]

theorem exec_reti_flags {s t : GBConsole} {n : Nat}
    (h : s.exec_reti = some (t, n)) : t.flags = s.flags := by
  unfold GBConsole.exec_reti at h
  rw [optionBind_eq_some] at h
  obtain ⟨x, _hx, h⟩ := h
  rw [finish_flags h]

theorem exec_call_a16_flags {s t : GBConsole} {n : Nat}
    (h : s.exec_call_a16 = some (t, n)) : t.flags = s.flags := by
  unfold GBConsole.exec_call_a16 at h
  rw [optionBind_eq_some] at h
  obtain ⟨s1, hw, h⟩ := h
  rw [optionBind_eq_some] at h
  obtain ⟨x, _hx, h⟩ := h
  rw [finish_flags h, write_16_flags hw]

theorem exec_ld_a16_sp_flags {s t : GBConsole} {n : Nat}
    (h : s.exec_ld_a16_sp = some (t, n)) : t.flags = s.flags := by
  unfold GBConsole.exec_ld_a16_sp at h
  rw [optionBind_eq_some] at h
  obtain ⟨x, _hx, h⟩ := h
  rw [optionBind_eq_some] at h
  obtain ⟨s1, hw, h⟩ := h
  rw [finish_flags h, write_16_flags hw]

theorem exec_ldh_a8_a_flags {s t : GBConsole} {n : Nat}
    (h : s.exec_ldh_a8_a = some (t, n)) : t.flags = s.flags := by
  unfold GBConsole.exec_ldh_a8_a at h
  rw [optionBind_eq_some] at h
  obtain ⟨x, _hx, h⟩ := h
  rw [optionBind_eq_some] at h
  obtain ⟨s1, hw, h⟩ := h
  rw [finish_flags h, write_flags _ hw]

theorem exec_ldh_a_a8_flags {s t : GBConsole} {n : Nat}
    (h : s.exec_ldh_a_a8 = some (t, n)) : t.flags = s.flags := by
  unfold GBConsole.exec_ldh_a_a8 at h
  rw [optionBind_eq_some] at h
  obtain ⟨x, _hx, h⟩ := h
  rw [optionBind_eq_some] at h
  obtain ⟨y, _hy, h⟩ := h
  rw [finish_flags h]

theorem exec_rlca_lownib {s t : GBConsole} {n : Nat} (hs : s.flags % 16 = 0)
    (h : s.exec_rlca = some (t, n)) : t.flags % 16 = 0 := by
  unfold GBConsole.exec_rlca at h
  repeat (any_goals (split at h))
  all_goals
    (rw [finish_flags h]
     repeat
       first
       | exact hs
       | apply flag_toggle_lownib
       | decide
       | split
       | simp only [])

theorem exec_rrca_lownib {s t : GBConsole} {n : Nat} (hs : s.flags % 16 = 0)
    (h : s.exec_rrca = some (t, n)) : t.flags % 16 = 0 := by
  unfold GBConsole.exec_rrca at h
  repeat (any_goals (split at h))
  all_goals
    (rw [finish_flags h]
     repeat
       first
       | exact hs
       | apply flag_toggle_lownib
       | decide
       | split
       | simp only [])

theorem exec_rla_lownib {s t : GBConsole} {n : Nat} (hs : s.flags % 16 = 0)
    (h : s.exec_rla = some (t, n)) : t.flags % 16 = 0 := by
  unfold GBConsole.exec_rla at h
  repeat (any_goals (split at h))
  all_goals
    (rw [finish_flags h]
     repeat
       first
       | exact hs
       | apply flag_toggle_lownib
       | decide
       | split
       | simp only [])

theorem exec_rra_lownib {s t : GBConsole} {n : Nat} (hs : s.flags % 16 = 0)
    (h : s.exec_rra = some (t, n)) : t.flags % 16 = 0 := by
  unfold GBConsole.exec_rra at h
  repeat (any_goals (split at h))
  all_goals
    (rw [finish_flags h]
     repeat
       first
       | exact hs
       | apply flag_toggle_lownib
       | decide
       | split
       | simp only [])

theorem exec_daa_lownib {s t : GBConsole} {n : Nat} (hs : s.flags % 16 = 0)
    (h : s.exec_daa = some (t, n)) : t.flags % 16 = 0 := by
  unfold GBConsole.exec_daa at h
  repeat (any_goals (split at h))
  all_goals
    (rw [finish_flags h]
     repeat
       first
       | exact hs
       | apply flag_toggle_lownib
       | decide
       | split
       | simp only [])

theorem exec_cpl_lownib {s t : GBConsole} {n : Nat} (hs : s.flags % 16 = 0)
    (h : s.exec_cpl = some (t, n)) : t.flags % 16 = 0 := by
  unfold GBConsole.exec_cpl at h
  rw [finish_flags h]
  repeat
    first
    | exact hs
    | apply flag_toggle_lownib
    | decide
    | split
    | simp only []

theorem exec_scf_lownib {s t : GBConsole} {n : Nat} (hs : s.flags % 16 = 0)
    (h : s.exec_scf = some (t, n)) : t.flags % 16 = 0 := by
  unfold GBConsole.exec_scf at h
  rw [finish_flags h]
  repeat
    first
    | exact hs
    | apply flag_toggle_lownib
    | decide
    | split
    | simp only []

theorem exec_ccf_lownib {s t : GBConsole} {n : Nat} (hs : s.flags % 16 = 0)
    (h : s.exec_ccf = some (t, n)) : t.flags % 16 = 0 := by
  unfold GBConsole.exec_ccf at h
  rw [finish_flags h]
  repeat
    first
    | exact hs
    | apply flag_toggle_lownib
    | decide
    | split
    | simp only []

theorem exec_add_sp_e8_lownib {s t : GBConsole} {n : Nat} (hs : s.flags % 16 = 0)
    (h : s.exec_add_sp_e8 = some (t, n)) : t.flags % 16 = 0 := by
  unfold GBConsole.exec_add_sp_e8 at h
  rw [optionBind_eq_some] at h
  obtain ⟨x, _hx, h⟩ := h
  rw [finish_flags h]
  repeat
    first
    | exact hs
    | apply flag_toggle_lownib
    | decide
    | split
    | simp only []

theorem exec_ld_hl_sp_e8_lownib {s t : GBConsole} {n : Nat} (hs : s.flags % 16 = 0)
    (h : s.exec_ld_hl_sp_e8 = some (t, n)) : t.flags % 16 = 0 := by
  unfold GBConsole.exec_ld_hl_sp_e8 at h
  rw [optionBind_eq_some] at h
  obtain ⟨x, _hx, h⟩ := h
  rw [finish_flags h]
  repeat
    first
    | exact hs
    | apply flag_toggle_lownib
    | decide
    | split
    | simp only []

theorem exec_jr_flags {s : GBConsole} {opcode : Nat} {t : GBConsole} {n : Nat}
    (h : s.exec_jr opcode = some (t, n)) : t.flags = s.flags := by
  unfold GBConsole.exec_jr at h
  repeat (any_goals (first
    | simp only [optionBind_some, optionBind_none] at h
    | (rw [optionBind_eq_some] at h; obtain ⟨_x, _hx, h⟩ := h)
    | split at h))
  all_goals
    first
    | exact Option.noConfusion h
    | (rw [finish_flags h]
       repeat
         first
         | rfl
         | rw [write_flags _ (by assumption)]
         | rw [write_16_flags (by assumption)]
         | rw [reg8_set_flags (by assumption)]
         | split
         | simp only [])
    | (simp only [Option.some.injEq, Prod.mk.injEq] at h
       obtain ⟨h, _⟩ := h
       subst h
       repeat
         first
         | rfl
         | rw [write_flags _ (by assumption)]
         | rw [write_16_flags (by assumption)]
         | rw [reg8_set_flags (by assumption)]
         | split
         | simp only [])

theorem exec_ld_indirect_flags {s : GBConsole} {opcode : Nat} {t : GBConsole} {n : Nat}
    (h : s.exec_ld_indirect opcode = some (t, n)) : t.flags = s.flags := by
  unfold GBConsole.exec_ld_indirect at h
  repeat (any_goals (first
    | simp only [optionBind_some, optionBind_none] at h
    | (rw [optionBind_eq_some] at h; obtain ⟨_x, _hx, h⟩ := h)
    | split at h))
  all_goals
    first
    | exact Option.noConfusion h
    | (rw [finish_flags h]
       repeat
         first
         | rfl
         | rw [write_flags _ (by assumption)]
         | rw [write_16_flags (by assumption)]
         | rw [reg8_set_flags (by assumption)]
         | split
         | simp only [])
    | (simp only [Option.some.injEq, Prod.mk.injEq] at h
       obtain ⟨h, _⟩ := h
       subst h
       repeat
         first
         | rfl
         | rw [write_flags _ (by assumption)]
         | rw [write_16_flags (by assumption)]
         | rw [reg8_set_flags (by assumption)]
         | split
         | simp only [])

theorem exec_ld_r8_r8_flags {s : GBConsole} {opcode : Nat} {t : GBConsole} {n : Nat}
    (h : s.exec_ld_r8_r8 opcode = some (t, n)) : t.flags = s.flags := by
  unfold GBConsole.exec_ld_r8_r8 at h
  repeat (any_goals (first
    | simp only [optionBind_some, optionBind_none] at h
    | (rw [optionBind_eq_some] at h; obtain ⟨_x, _hx, h⟩ := h)
    | split at h))
  all_goals
    first
    | exact Option.noConfusion h
    | (rw [finish_flags h]
       repeat
         first
         | rfl
         | rw [write_flags _ (by assumption)]
         | rw [write_16_flags (by assumption)]
         | rw [reg8_set_flags (by assumption)]
         | split
         | simp only [])
    | (simp only [Option.some.injEq, Prod.mk.injEq] at h
       obtain ⟨h, _⟩ := h
       subst h
       repeat
         first
         | rfl
         | rw [write_flags _ (by assumption)]
         | rw [write_16_flags (by assumption)]
         | rw [reg8_set_flags (by assumption)]
         | split
         | simp only [])

theorem exec_incdec16_flags {s : GBConsole} {opcode : Nat} {t : GBConsole} {n : Nat}
    (h : s.exec_incdec16 opcode = some (t, n)) : t.flags = s.flags := by
  unfold GBConsole.exec_incdec16 at h
  repeat (any_goals (first
    | simp only [optionBind_some, optionBind_none] at h
    | (rw [optionBind_eq_some] at h; obtain ⟨_x, _hx, h⟩ := h)
    | split at h))
  all_goals
    first
    | exact Option.noConfusion h
    | (rw [finish_flags h]
       repeat
         first
         | rfl
         | rw [write_flags _ (by assumption)]
         | rw [write_16_flags (by assumption)]
         | rw [reg8_set_flags (by assumption)]
         | split
         | simp only [])
    | (simp only [Option.some.injEq, Prod.mk.injEq] at h
       obtain ⟨h, _⟩ := h
       subst h
       repeat
         first
         | rfl
         | rw [write_flags _ (by assumption)]
         | rw [write_16_flags (by assumption)]
         | rw [reg8_set_flags (by assumption)]
         | split
         | simp only [])

theorem exec_ld8_imm_flags {s : GBConsole} {opcode : Nat} {t : GBConsole} {n : Nat}
    (h : s.exec_ld8_imm opcode = some (t, n)) : t.flags = s.flags := by
  unfold GBConsole.exec_ld8_imm at h
  repeat (any_goals (first
    | simp only [optionBind_some, optionBind_none] at h
    | (rw [optionBind_eq_some] at h; obtain ⟨_x, _hx, h⟩ := h)
    | split at h))
  all_goals
    first
    | exact Option.noConfusion h
    | (rw [finish_flags h]
       repeat
         first
         | rfl
         | rw [write_flags _ (by assumption)]
         | rw [write_16_flags (by assumption)]
         | rw [reg8_set_flags (by assumption)]
         | split
         | simp only [])
    | (simp only [Option.some.injEq, Prod.mk.injEq] at h
       obtain ⟨h, _⟩ := h
       subst h
       repeat
         first
         | rfl
         | rw [write_flags _ (by assumption)]
         | rw [write_16_flags (by assumption)]
         | rw [reg8_set_flags (by assumption)]
         | split
         | simp only [])

theorem exec_ret_cc_flags {s : GBConsole} {opcode : Nat} {t : GBConsole} {n : Nat}
    (h : s.exec_ret_cc opcode = some (t, n)) : t.flags = s.flags := by
  unfold GBConsole.exec_ret_cc at h
  repeat (any_goals (first
    | simp only [optionBind_some, optionBind_none] at h
    | (rw [optionBind_eq_some] at h; obtain ⟨_x, _hx, h⟩ := h)
    | split at h))
  all_goals
    first
    | exact Option.noConfusion h
    | (rw [finish_flags h]
       repeat
         first
         | rfl
         | rw [write_flags _ (by assumption)]
         | rw [write_16_flags (by assumption)]
         | rw [reg8_set_flags (by assumption)]
         | split
         | simp only [])
    | (simp only [Option.some.injEq, Prod.mk.injEq] at h
       obtain ⟨h, _⟩ := h
       subst h
       repeat
         first
         | rfl
         | rw [write_flags _ (by assumption)]
         | rw [write_16_flags (by assumption)]
         | rw [reg8_set_flags (by assumption)]
         | split
         | simp only [])

theorem exec_ldh_c_a16_flags {s : GBConsole} {opcode : Nat} {t : GBConsole} {n : Nat}
    (h : s.exec_ldh_c_a16 opcode = some (t, n)) : t.flags = s.flags := by
  unfold GBConsole.exec_ldh_c_a16 at h
  repeat (any_goals (first
    | simp only [optionBind_some, optionBind_none] at h
    | (rw [optionBind_eq_some] at h; obtain ⟨_x, _hx, h⟩ := h)
    | split at h))
  all_goals
    first
    | exact Option.noConfusion h
    | (rw [finish_flags h]
       repeat
         first
         | rfl
         | rw [write_flags _ (by assumption)]
         | rw [write_16_flags (by assumption)]
         | rw [reg8_set_flags (by assumption)]
         | split
         | simp only [])
    | (simp only [Option.some.injEq, Prod.mk.injEq] at h
       obtain ⟨h, _⟩ := h
       subst h
       repeat
         first
         | rfl
         | rw [write_flags _ (by assumption)]
         | rw [write_16_flags (by assumption)]
         | rw [reg8_set_flags (by assumption)]
         | split
         | simp only [])

theorem exec_jp_cc_flags {s : GBConsole} {opcode : Nat} {t : GBConsole} {n : Nat}
    (h : s.exec_jp_cc opcode = some (t, n)) : t.flags = s.flags := by
  unfold GBConsole.exec_jp_cc at h
  repeat (any_goals (first
    | simp only [optionBind_some, optionBind_none] at h
    | (rw [optionBind_eq_some] at h; obtain ⟨_x, _hx, h⟩ := h)
    | split at h))
  all_goals
    first
    | exact Option.noConfusion h
    | (rw [finish_flags h]
       repeat
         first
         | rfl
         | rw [write_flags _ (by assumption)]
         | rw [write_16_flags (by assumption)]
         | rw [reg8_set_flags (by assumption)]
         | split
         | simp only [])
    | (simp only [Option.some.injEq, Prod.mk.injEq] at h
       obtain ⟨h, _⟩ := h
       subst h
       repeat
         first
         | rfl
         | rw [write_flags _ (by assumption)]
         | rw [write_16_flags (by assumption)]
         | rw [reg8_set_flags (by assumption)]
         | split
         | simp only [])

theorem exec_call_cc_flags {s : GBConsole} {opcode : Nat} {t : GBConsole} {n : Nat}
    (h : s.exec_call_cc opcode = some (t, n)) : t.flags = s.flags := by
  unfold GBConsole.exec_call_cc at h
  rw [optionBind_eq_some] at h
  obtain ⟨jc, hjc, h⟩ := h
  split at h
  · rw [optionBind_eq_some] at h
    obtain ⟨s1, hw, h⟩ := h
    rw [optionBind_eq_some] at h
    obtain ⟨target, hr, h⟩ := h
    rw [finish_flags h, write_16_flags hw]
  · rw [finish_flags h]

set_option maxRecDepth 4000 in
theorem exec_push_flags {s : GBConsole} {opcode : Nat} {t : GBConsole} {n : Nat}
    (h : s.exec_push opcode = some (t, n)) : t.flags = s.flags := by
  unfold GBConsole.exec_push at h
  repeat (any_goals (first
    | simp only [optionBind_some, optionBind_none] at h
    | (rw [optionBind_eq_some] at h; obtain ⟨_x, _hx, h⟩ := h)
    | split at h))
  all_goals
    first
    | exact Option.noConfusion h
    | (rw [finish_flags h]
       repeat
         first
         | rfl
         | rw [write_16_flags (by assumption)]
         | rw [reg8_set_flags (by assumption)]
         | rw [write_flags _ (by assumption)]
         | split
         | simp only [])
    | (simp only [Option.some.injEq, Prod.mk.injEq] at h
       obtain ⟨h, _⟩ := h
       subst h
       repeat
         first
         | rfl
         | rw [write_16_flags (by assumption)]
         | rw [reg8_set_flags (by assumption)]
         | rw [write_flags _ (by assumption)]
         | split
         | simp only [])

theorem exec_rst_flags {s : GBConsole} {opcode : Nat} {t : GBConsole} {n : Nat}
    (h : s.exec_rst opcode = some (t, n)) : t.flags = s.flags := by
  unfold GBConsole.exec_rst at h
  repeat (any_goals (first
    | simp only [optionBindB_some, optionBindB_none] at h
    | split at h
    | simp only [] at h))
  all_goals
    first
    | (rw [optionBindB_eq_some] at h
       obtain ⟨s1, hw, h⟩ := h
       rw [finish_flags h, write_16_flags hw])
    | exact Option.noConfusion h

theorem exec_cb_res_flags {s : GBConsole} {opcode : Nat} {t : GBConsole} {n : Nat}
    (h : s.exec_cb_res opcode = some (t, n)) : t.flags = s.flags := by
  unfold GBConsole.exec_cb_res at h
  repeat (any_goals (first
    | simp only [optionBind_some, optionBind_none] at h
    | (rw [optionBind_eq_some] at h; obtain ⟨_x, _hx, h⟩ := h)
    | split at h))
  all_goals
    first
    | exact Option.noConfusion h
    | (rw [finish_flags h]
       repeat
         first
         | rfl
         | rw [write_flags _ (by assumption)]
         | rw [write_16_flags (by assumption)]
         | rw [reg8_set_flags (by assumption)]
         | split
         | simp only [])
    | (simp only [Option.some.injEq, Prod.mk.injEq] at h
       obtain ⟨h, _⟩ := h
       subst h
       repeat
         first
         | rfl
         | rw [write_flags _ (by assumption)]
         | rw [write_16_flags (by assumption)]
         | rw [reg8_set_flags (by assumption)]
         | split
         | simp only [])

theorem exec_cb_set_flags {s : GBConsole} {opcode : Nat} {t : GBConsole} {n : Nat}
    (h : s.exec_cb_set opcode = some (t, n)) : t.flags = s.flags := by
  unfold GBConsole.exec_cb_set at h
  repeat (any_goals (first
    | simp only [optionBind_some, optionBind_none] at h
    | (rw [optionBind_eq_some] at h; obtain ⟨_x, _hx, h⟩ := h)
    | split at h))
  all_goals
    first
    | exact Option.noConfusion h
    | (rw [finish_flags h]
       repeat
         first
         | rfl
         | rw [write_flags _ (by assumption)]
         | rw [write_16_flags (by assumption)]
         | rw [reg8_set_flags (by assumption)]
         | split
         | simp only [])
    | (simp only [Option.some.injEq, Prod.mk.injEq] at h
       obtain ⟨h, _⟩ := h
       subst h
       repeat
         first
         | rfl
         | rw [write_flags _ (by assumption)]
         | rw [write_16_flags (by assumption)]
         | rw [reg8_set_flags (by assumption)]
         | split
         | simp only [])

theorem exec_ld16_add16_lownib {s : GBConsole} {opcode : Nat} {t : GBConsole} {n : Nat}
    (hs : s.flags % 16 = 0) (h : s.exec_ld16_add16 opcode = some (t, n)) : t.flags % 16 = 0 := by
  unfold GBConsole.exec_ld16_add16 at h
  repeat (any_goals (first
    | simp only [optionBindB_some, optionBindB_none] at h
    | simp only [optionBind_some, optionBind_none] at h
    | (rw [optionBindB_eq_some] at h; obtain ⟨_x, _hx, h⟩ := h)
    | (rw [optionBind_eq_some] at h; obtain ⟨_x, _hx, h⟩ := h)
    | split at h
    | simp only [] at h))
  all_goals
    first
    | exact Option.noConfusion h
    | ((first
        | rw [finish_flags h]
        | (simp only [Option.some.injEq, Prod.mk.injEq] at h
           obtain ⟨h, _⟩ := h
           subst h))
       repeat
         first
         | exact hs
         | (apply flag_toggle_lownib
            case hf => decide)
         | exact alu_op_lownib hs (by assumption)
         | exact lownib_and_right _ (by decide)
         | rw [reg8_set_flags (by assumption)]
         | rw [write_flags _ (by assumption)]
         | split
         | simp only [])

set_option maxHeartbeats 1000000 in
theorem exec_incdec8_lownib {s : GBConsole} {opcode : Nat} {t : GBConsole} {n : Nat}
    (hs : s.flags % 16 = 0) (h : s.exec_incdec8 opcode = some (t, n)) : t.flags % 16 = 0 := by
  unfold GBConsole.exec_incdec8 at h
  repeat (any_goals (first
    | simp only [optionBindB_some, optionBindB_none] at h
    | simp only [optionBind_some, optionBind_none] at h
    | (rw [optionBindB_eq_some] at h; obtain ⟨_x, _hx, h⟩ := h)
    | (rw [optionBind_eq_some] at h; obtain ⟨_x, _hx, h⟩ := h)
    | split at h
    | simp only [] at h))
  all_goals
    first
    | exact Option.noConfusion h
    | ((first
        | rw [finish_flags h]
        | (simp only [Option.some.injEq, Prod.mk.injEq] at h
           obtain ⟨h, _⟩ := h
           subst h))
       repeat
         first
         | exact hs
         | (apply flag_toggle_lownib
            case hf => decide)
         | exact alu_op_lownib hs (by assumption)
         | exact lownib_and_right _ (by decide)
         | rw [reg8_set_flags (by assumption)]
         | rw [write_flags _ (by assumption)]
         | split
         | simp only [])

theorem exec_alu_r8_lownib {s : GBConsole} {opcode : Nat} {t : GBConsole} {n : Nat}
    (hs : s.flags % 16 = 0) (h : s.exec_alu_r8 opcode = some (t, n)) : t.flags % 16 = 0 := by
  unfold GBConsole.exec_alu_r8 at h
  repeat (any_goals (first
    | simp only [optionBindB_some, optionBindB_none] at h
    | simp only [optionBind_some, optionBind_none] at h
    | (rw [optionBindB_eq_some] at h; obtain ⟨_x, _hx, h⟩ := h)
    | (rw [optionBind_eq_some] at h; obtain ⟨_x, _hx, h⟩ := h)
    | split at h
    | simp only [] at h))
  all_goals
    first
    | exact Option.noConfusion h
    | ((first
        | rw [finish_flags h]
        | (simp only [Option.some.injEq, Prod.mk.injEq] at h
           obtain ⟨h, _⟩ := h
           subst h))
       repeat
         first
         | exact hs
         | (apply flag_toggle_lownib
            case hf => decide)
         | exact alu_op_lownib hs (by assumption)
         | exact lownib_and_right _ (by decide)
         | rw [reg8_set_flags (by assumption)]
         | rw [write_flags _ (by assumption)]
         | split
         | simp only [])

theorem exec_alu_imm_lownib {s : GBConsole} {opcode : Nat} {t : GBConsole} {n : Nat}
    (hs : s.flags % 16 = 0) (h : s.exec_alu_imm opcode = some (t, n)) : t.flags % 16 = 0 := by
  unfold GBConsole.exec_alu_imm at h
  repeat (any_goals (first
    | simp only [optionBindB_some, optionBindB_none] at h
    | simp only [optionBind_some, optionBind_none] at h
    | (rw [optionBindB_eq_some] at h; obtain ⟨_x, _hx, h⟩ := h)
    | (rw [optionBind_eq_some] at h; obtain ⟨_x, _hx, h⟩ := h)
    | split at h
    | simp only [] at h))
  all_goals
    first
    | exact Option.noConfusion h
    | ((first
        | rw [finish_flags h]
        | (simp only [Option.some.injEq, Prod.mk.injEq] at h
           obtain ⟨h, _⟩ := h
           subst h))
       repeat
         first
         | exact hs
         | (apply flag_toggle_lownib
            case hf => decide)
         | exact alu_op_lownib hs (by assumption)
         | exact lownib_and_right _ (by decide)
         | rw [reg8_set_flags (by assumption)]
         | rw [write_flags _ (by assumption)]
         | split
         | simp only [])

theorem exec_pop_lownib {s : GBConsole} {opcode : Nat} {t : GBConsole} {n : Nat}
    (hs : s.flags % 16 = 0) (h : s.exec_pop opcode = some (t, n)) : t.flags % 16 = 0 := by
  unfold GBConsole.exec_pop at h
  repeat (any_goals (first
    | simp only [optionBindB_some, optionBindB_none] at h
    | simp only [optionBind_some, optionBind_none] at h
    | (rw [optionBindB_eq_some] at h; obtain ⟨_x, _hx, h⟩ := h)
    | (rw [optionBind_eq_some] at h; obtain ⟨_x, _hx, h⟩ := h)
    | split at h
    | simp only [] at h))
  all_goals
    first
    | exact Option.noConfusion h
    | ((first
        | rw [finish_flags h]
        | (simp only [Option.some.injEq, Prod.mk.injEq] at h
           obtain ⟨h, _⟩ := h
           subst h))
       repeat
         first
         | exact hs
         | (apply flag_toggle_lownib
            case hf => decide)
         | exact alu_op_lownib hs (by assumption)
         | exact lownib_and_right _ (by decide)
         | rw [reg8_set_flags (by assumption)]
         | rw [write_flags _ (by assumption)]
         | split
         | simp only [])

theorem exec_cb_rlc_lownib {s : GBConsole} {opcode : Nat} {t : GBConsole} {n : Nat}
    (hs : s.flags % 16 = 0) (h : s.exec_cb_rlc opcode = some (t, n)) : t.flags % 16 = 0 := by
  unfold GBConsole.exec_cb_rlc at h
  repeat (any_goals (first
    | simp only [optionBindB_some, optionBindB_none] at h
    | simp only [optionBind_some, optionBind_none] at h
    | (rw [optionBindB_eq_some] at h; obtain ⟨_x, _hx, h⟩ := h)
    | (rw [optionBind_eq_some] at h; obtain ⟨_x, _hx, h⟩ := h)
    | split at h
    | simp only [] at h))
  all_goals
    first
    | exact Option.noConfusion h
    | ((first
        | rw [finish_flags h]
        | (simp only [Option.some.injEq, Prod.mk.injEq] at h
           obtain ⟨h, _⟩ := h
           subst h))
       repeat
         first
         | exact hs
         | (apply flag_toggle_lownib
            case hf => decide)
         | exact alu_op_lownib hs (by assumption)
         | exact lownib_and_right _ (by decide)
         | rw [reg8_set_flags (by assumption)]
         | rw [write_flags _ (by assumption)]
         | split
         | simp only [])

theorem exec_cb_rrc_lownib {s : GBConsole} {opcode : Nat} {t : GBConsole} {n : Nat}
    (hs : s.flags % 16 = 0) (h : s.exec_cb_rrc opcode = some (t, n)) : t.flags % 16 = 0 := by
  unfold GBConsole.exec_cb_rrc at h
  repeat (any_goals (first
    | simp only [optionBindB_some, optionBindB_none] at h
    | simp only [optionBind_some, optionBind_none] at h
    | (rw [optionBindB_eq_some] at h; obtain ⟨_x, _hx, h⟩ := h)
    | (rw [optionBind_eq_some] at h; obtain ⟨_x, _hx, h⟩ := h)
    | split at h
    | simp only [] at h))
  all_goals
    first
    | exact Option.noConfusion h
    | ((first
        | rw [finish_flags h]
        | (simp only [Option.some.injEq, Prod.mk.injEq] at h
           obtain ⟨h, _⟩ := h
           subst h))
       repeat
         first
         | exact hs
         | (apply flag_toggle_lownib
            case hf => decide)
         | exact alu_op_lownib hs (by assumption)
         | exact lownib_and_right _ (by decide)
         | rw [reg8_set_flags (by assumption)]
         | rw [write_flags _ (by assumption)]
         | split
         | simp only [])

theorem exec_cb_rl_lownib {s : GBConsole} {opcode : Nat} {t : GBConsole} {n : Nat}
    (hs : s.flags % 16 = 0) (h : s.exec_cb_rl opcode = some (t, n)) : t.flags % 16 = 0 := by
  unfold GBConsole.exec_cb_rl at h
  repeat (any_goals (first
    | simp only [optionBindB_some, optionBindB_none] at h
    | simp only [optionBind_some, optionBind_none] at h
    | (rw [optionBindB_eq_some] at h; obtain ⟨_x, _hx, h⟩ := h)
    | (rw [optionBind_eq_some] at h; obtain ⟨_x, _hx, h⟩ := h)
    | split at h
    | simp only [] at h))
  all_goals
    first
    | exact Option.noConfusion h
    | ((first
        | rw [finish_flags h]
        | (simp only [Option.some.injEq, Prod.mk.injEq] at h
           obtain ⟨h, _⟩ := h
           subst h))
       repeat
         first
         | exact hs
         | (apply flag_toggle_lownib
            case hf => decide)
         | exact alu_op_lownib hs (by assumption)
         | exact lownib_and_right _ (by decide)
         | rw [reg8_set_flags (by assumption)]
         | rw [write_flags _ (by assumption)]
         | split
         | simp only [])

theorem exec_cb_rr_lownib {s : GBConsole} {opcode : Nat} {t : GBConsole} {n : Nat}
    (hs : s.flags % 16 = 0) (h : s.exec_cb_rr opcode = some (t, n)) : t.flags % 16 = 0 := by
  unfold GBConsole.exec_cb_rr at h
  repeat (any_goals (first
    | simp only [optionBindB_some, optionBindB_none] at h
    | simp only [optionBind_some, optionBind_none] at h
    | (rw [optionBindB_eq_some] at h; obtain ⟨_x, _hx, h⟩ := h)
    | (rw [optionBind_eq_some] at h; obtain ⟨_x, _hx, h⟩ := h)
    | split at h
    | simp only [] at h))
  all_goals
    first
    | exact Option.noConfusion h
    | ((first
        | rw [finish_flags h]
        | (simp only [Option.some.injEq, Prod.mk.injEq] at h
           obtain ⟨h, _⟩ := h
           subst h))
       repeat
         first
         | exact hs
         | (apply flag_toggle_lownib
            case hf => decide)
         | exact alu_op_lownib hs (by assumption)
         | exact lownib_and_right _ (by decide)
         | rw [reg8_set_flags (by assumption)]
         | rw [write_flags _ (by assumption)]
         | split
         | simp only [])

theorem exec_cb_sla_lownib {s : GBConsole} {opcode : Nat} {t : GBConsole} {n : Nat}
    (hs : s.flags % 16 = 0) (h : s.exec_cb_sla opcode = some (t, n)) : t.flags % 16 = 0 := by
  unfold GBConsole.exec_cb_sla at h
  repeat (any_goals (first
    | simp only [optionBindB_some, optionBindB_none] at h
    | simp only [optionBind_some, optionBind_none] at h
    | (rw [optionBindB_eq_some] at h; obtain ⟨_x, _hx, h⟩ := h)
    | (rw [optionBind_eq_some] at h; obtain ⟨_x, _hx, h⟩ := h)
    | split at h
    | simp only [] at h))
  all_goals
    first
    | exact Option.noConfusion h
    | ((first
        | rw [finish_flags h]
        | (simp only [Option.some.injEq, Prod.mk.injEq] at h
           obtain ⟨h, _⟩ := h
           subst h))
       repeat
         first
         | exact hs
         | (apply flag_toggle_lownib
            case hf => decide)
         | exact alu_op_lownib hs (by assumption)
         | exact lownib_and_right _ (by decide)
         | rw [reg8_set_flags (by assumption)]
         | rw [write_flags _ (by assumption)]
         | split
         | simp only [])

theorem exec_cb_sra_lownib {s : GBConsole} {opcode : Nat} {t : GBConsole} {n : Nat}
    (hs : s.flags % 16 = 0) (h : s.exec_cb_sra opcode = some (t, n)) : t.flags % 16 = 0 := by
  unfold GBConsole.exec_cb_sra at h
  repeat (any_goals (first
    | simp only [optionBindB_some, optionBindB_none] at h
    | simp only [optionBind_some, optionBind_none] at h
    | (rw [optionBindB_eq_some] at h; obtain ⟨_x, _hx, h⟩ := h)
    | (rw [optionBind_eq_some] at h; obtain ⟨_x, _hx, h⟩ := h)
    | split at h
    | simp only [] at h))
  all_goals
    first
    | exact Option.noConfusion h
    | ((first
        | rw [finish_flags h]
        | (simp only [Option.some.injEq, Prod.mk.injEq] at h
           obtain ⟨h, _⟩ := h
           subst h))
       repeat
         first
         | exact hs
         | (apply flag_toggle_lownib
            case hf => decide)
         | exact alu_op_lownib hs (by assumption)
         | exact lownib_and_right _ (by decide)
         | rw [reg8_set_flags (by assumption)]
         | rw [write_flags _ (by assumption)]
         | split
         | simp only [])

theorem exec_cb_swap_lownib {s : GBConsole} {opcode : Nat} {t : GBConsole} {n : Nat}
    (hs : s.flags % 16 = 0) (h : s.exec_cb_swap opcode = some (t, n)) : t.flags % 16 = 0 := by
  unfold GBConsole.exec_cb_swap at h
  repeat (any_goals (first
    | simp only [optionBindB_some, optionBindB_none] at h
    | simp only [optionBind_some, optionBind_none] at h
    | (rw [optionBindB_eq_some] at h; obtain ⟨_x, _hx, h⟩ := h)
    | (rw [optionBind_eq_some] at h; obtain ⟨_x, _hx, h⟩ := h)
    | split at h
    | simp only [] at h))
  all_goals
    first
    | exact Option.noConfusion h
    | ((first
        | rw [finish_flags h]
        | (simp only [Option.some.injEq, Prod.mk.injEq] at h
           obtain ⟨h, _⟩ := h
           subst h))
       repeat
         first
         | exact hs
         | (apply flag_toggle_lownib
            case hf => decide)
         | exact alu_op_lownib hs (by assumption)
         | exact lownib_and_right _ (by decide)
         | rw [reg8_set_flags (by assumption)]
         | rw [write_flags _ (by assumption)]
         | split
         | simp only [])

theorem exec_cb_srl_lownib {s : GBConsole} {opcode : Nat} {t : GBConsole} {n : Nat}
    (hs : s.flags % 16 = 0) (h : s.exec_cb_srl opcode = some (t, n)) : t.flags % 16 = 0 := by
  unfold GBConsole.exec_cb_srl at h
  repeat (any_goals (first
    | simp only [optionBindB_some, optionBindB_none] at h
    | simp only [optionBind_some, optionBind_none] at h
    | (rw [optionBindB_eq_some] at h; obtain ⟨_x, _hx, h⟩ := h)
    | (rw [optionBind_eq_some] at h; obtain ⟨_x, _hx, h⟩ := h)
    | split at h
    | simp only [] at h))
  all_goals
    first
    | exact Option.noConfusion h
    | ((first
        | rw [finish_flags h]
        | (simp only [Option.some.injEq, Prod.mk.injEq] at h
           obtain ⟨h, _⟩ := h
           subst h))
       repeat
         first
         | exact hs
         | (apply flag_toggle_lownib
            case hf => decide)
         | exact alu_op_lownib hs (by assumption)
         | exact lownib_and_right _ (by decide)
         | rw [reg8_set_flags (by assumption)]
         | rw [write_flags _ (by assumption)]
         | split
         | simp only [])

theorem exec_cb_bit_lownib {s : GBConsole} {opcode : Nat} {t : GBConsole} {n : Nat}
    (hs : s.flags % 16 = 0) (h : s.exec_cb_bit opcode = some (t, n)) : t.flags % 16 = 0 := by
  unfold GBConsole.exec_cb_bit at h
  simp only [] at h
  split at h
  all_goals (
    first
      | rw [optionBindB_eq_some] at h
      | rw [optionBind_eq_some] at h
    obtain ⟨x, hx, h⟩ := h
    obtain ⟨x1, x2⟩ := x
    simp only [] at h
    simp only [Option.some.injEq, Prod.mk.injEq] at h
    obtain ⟨h, _⟩ := h
    subst h
    rw [Option.map_eq_some'] at hx
    obtain ⟨v, hv, he⟩ := hx
    simp only [Prod.mk.injEq] at he
    obtain ⟨he1, _⟩ := he
    apply flag_toggle_lownib
    case hf => decide
    apply flag_toggle_lownib
    case hf => decide
    rw [← he1]
    apply flag_toggle_lownib
    case hf => decide
    exact hs)

set_option maxHeartbeats 2000000 in
theorem execute_prefixed_lownib {s : GBConsole} {t : GBConsole} {n : Nat}
    (hs : s.flags % 16 = 0) (h : s.execute_prefixed_instruction = some (t, n)) :
    t.flags % 16 = 0 := by
  unfold GBConsole.execute_prefixed_instruction at h
  repeat (any_goals (first
    | simp only [optionBindB_some, optionBindB_none] at h
    | simp only [optionBind_some, optionBind_none] at h
    | (rw [optionBindB_eq_some] at h; obtain ⟨_x, _hx, h⟩ := h)
    | (rw [optionBind_eq_some] at h; obtain ⟨_x, _hx, h⟩ := h)
    | split at h))
  all_goals
    first
    | exact Option.noConfusion h
    | exact exec_cb_rlc_lownib hs h
    | exact exec_cb_rrc_lownib hs h
    | exact exec_cb_rl_lownib hs h
    | exact exec_cb_rr_lownib hs h
    | exact exec_cb_sla_lownib hs h
    | exact exec_cb_sra_lownib hs h
    | exact exec_cb_swap_lownib hs h
    | exact exec_cb_srl_lownib hs h
    | exact exec_cb_bit_lownib hs h
    | (rw [exec_cb_res_flags h]; exact hs)
    | (rw [exec_cb_set_flags h]; exact hs)

set_option maxHeartbeats 4000000 in
set_option maxRecDepth 8000 in
theorem execute_lownib {s : GBConsole} {t : GBConsole} {n : Nat}
    (hs : s.flags % 16 = 0) (h : s.execute_instruction = some (t, n)) :
    t.flags % 16 = 0 := by
  unfold GBConsole.execute_instruction at h
  first
    | rw [optionBindB_eq_some] at h
    | rw [optionBind_eq_some] at h
  obtain ⟨opcode, hop, h⟩ := h
  by_cases hc0 : opcode = 0o000
  · rw [if_pos hc0] at h
    rw [finish_flags h]
    exact hs
  · rw [if_neg hc0] at h
    by_cases hc1 : opcode = 0o010
    · rw [if_pos hc1] at h
      rw [exec_ld_a16_sp_flags h]
      exact hs
    · rw [if_neg hc1] at h
      by_cases hc2 : opcode = 0o020
      · rw [if_pos hc2] at h
        rw [finish_flags h]
        exact hs
      · rw [if_neg hc2] at h
        by_cases hc3 : opcode = 0o007
        · rw [if_pos hc3] at h
          exact exec_rlca_lownib hs h
        · rw [if_neg hc3] at h
          by_cases hc4 : opcode = 0o017
          · rw [if_pos hc4] at h
            exact exec_rrca_lownib hs h
          · rw [if_neg hc4] at h
            by_cases hc5 : opcode = 0o027
            · rw [if_pos hc5] at h
              exact exec_rla_lownib hs h
            · rw [if_neg hc5] at h
              by_cases hc6 : opcode = 0o037
              · rw [if_pos hc6] at h
                exact exec_rra_lownib hs h
              · rw [if_neg hc6] at h
                by_cases hc7 : opcode = 0o047
                · rw [if_pos hc7] at h
                  exact exec_daa_lownib hs h
                · rw [if_neg hc7] at h
                  by_cases hc8 : opcode = 0o057
                  · rw [if_pos hc8] at h
                    exact exec_cpl_lownib hs h
                  · rw [if_neg hc8] at h
                    by_cases hc9 : opcode = 0o067
                    · rw [if_pos hc9] at h
                      exact exec_scf_lownib hs h
                    · rw [if_neg hc9] at h
                      by_cases hc10 : opcode = 0o077
                      · rw [if_pos hc10] at h
                        exact exec_ccf_lownib hs h
                      · rw [if_neg hc10] at h
                        by_cases hc11 : opcode = 0o166
                        · rw [if_pos hc11] at h
                          rw [exec_halt_flags h]
                          exact hs
                        · rw [if_neg hc11] at h
                          by_cases hc12 : opcode = 0o303
                          · rw [if_pos hc12] at h
                            rw [exec_jp_a16_flags h]
                            exact hs
                          · rw [if_neg hc12] at h
                            by_cases hc13 : opcode = 0o311
                            · rw [if_pos hc13] at h
                              rw [exec_ret_flags h]
                              exact hs
                            · rw [if_neg hc13] at h
                              by_cases hc14 : opcode = 0o313
                              · rw [if_pos hc14] at h
                                first
                                  | rw [optionBindB_eq_some] at h
                                  | rw [optionBind_eq_some] at h
                                obtain ⟨d, hd, h⟩ := h
                                rw [finish_flags h]
                                exact execute_prefixed_lownib hs hd
                              · rw [if_neg hc14] at h
                                by_cases hc15 : opcode = 0o315
                                · rw [if_pos hc15] at h
                                  rw [exec_call_a16_flags h]
                                  exact hs
                                · rw [if_neg hc15] at h
                                  by_cases hc16 : opcode = 0o331
                                  · rw [if_pos hc16] at h
                                    rw [exec_reti_flags h]
                                    exact hs
                                  · rw [if_neg hc16] at h
                                    by_cases hc17 : opcode = 0o340
                                    · rw [if_pos hc17] at h
                                      rw [exec_ldh_a8_a_flags h]
                                      exact hs
                                    · rw [if_neg hc17] at h
                                      by_cases hc18 : opcode = 0o350
                                      · rw [if_pos hc18] at h
                                        exact exec_add_sp_e8_lownib hs h
                                      · rw [if_neg hc18] at h
                                        by_cases hc19 : opcode = 0o351
                                        · rw [if_pos hc19] at h
                                          rw [exec_jp_hl_flags h]
                                          exact hs
                                        · rw [if_neg hc19] at h
                                          by_cases hc20 : opcode = 0o360
                                          · rw [if_pos hc20] at h
                                            rw [exec_ldh_a_a8_flags h]
                                            exact hs
                                          · rw [if_neg hc20] at h
                                            by_cases hc21 : opcode = 0o363
                                            · rw [if_pos hc21] at h
                                              rw [finish_flags h]
                                              exact hs
                                            · rw [if_neg hc21] at h
                                              by_cases hc22 : opcode = 0o370
                                              · rw [if_pos hc22] at h
                                                exact exec_ld_hl_sp_e8_lownib hs h
                                              · rw [if_neg hc22] at h
                                                by_cases hc23 : opcode = 0o371
                                                · rw [if_pos hc23] at h
                                                  rw [exec_ld_sp_hl_flags h]
                                                  exact hs
                                                · rw [if_neg hc23] at h
                                                  by_cases hc24 : opcode = 0o373
                                                  · rw [if_pos hc24] at h
                                                    rw [finish_flags h]
                                                    exact hs
                                                  · rw [if_neg hc24] at h
                                                    by_cases hc25 : opcode = 0o323 ∨ opcode = 0o333 ∨ opcode = 0o335 ∨ opcode = 0o343 ∨ opcode = 0o344 ∨ opcode = 0o353 ∨ opcode = 0o354 ∨ opcode = 0o355 ∨ opcode = 0o364 ∨ opcode = 0o374 ∨ opcode = 0o375
                                                    · rw [if_pos hc25] at h
                                                      exact Option.noConfusion h
                                                    · rw [if_neg hc25] at h
                                                      by_cases hc26 : opcode &&& 0o300 = 0o000
                                                      · rw [if_pos hc26] at h
                                                        by_cases hc27 : opcode &&& 0o007 = 0o000
                                                        · rw [if_pos hc27] at h
                                                          rw [exec_jr_flags h]
                                                          exact hs
                                                        · rw [if_neg hc27] at h
                                                          by_cases hc28 : opcode &&& 0o007 = 0o001
                                                          · rw [if_pos hc28] at h
                                                            exact exec_ld16_add16_lownib hs h
                                                          · rw [if_neg hc28] at h
                                                            by_cases hc29 : opcode &&& 0o007 = 0o002
                                                            · rw [if_pos hc29] at h
                                                              rw [exec_ld_indirect_flags h]
                                                              exact hs
                                                            · rw [if_neg hc29] at h
                                                              by_cases hc30 : opcode &&& 0o007 = 0o003
                                                              · rw [if_pos hc30] at h
                                                                rw [exec_incdec16_flags h]
                                                                exact hs
                                                              · rw [if_neg hc30] at h
                                                                by_cases hc31 : opcode &&& 0o007 = 0o004 ∨ opcode &&& 0o007 = 0o005
                                                                · rw [if_pos hc31] at h
                                                                  exact exec_incdec8_lownib hs h
                                                                · rw [if_neg hc31] at h
                                                                  by_cases hc32 : opcode &&& 0o007 = 0o006
                                                                  · rw [if_pos hc32] at h
                                                                    rw [exec_ld8_imm_flags h]
                                                                    exact hs
                                                                  · rw [if_neg hc32] at h
                                                                    exact Option.noConfusion h
                                                      · rw [if_neg hc26] at h
                                                        by_cases hc33 : opcode &&& 0o300 = 0o100
                                                        · rw [if_pos hc33] at h
                                                          rw [exec_ld_r8_r8_flags h]
                                                          exact hs
                                                        · rw [if_neg hc33] at h
                                                          by_cases hc34 : opcode &&& 0o300 = 0o200
                                                          · rw [if_pos hc34] at h
                                                            exact exec_alu_r8_lownib hs h
                                                          · rw [if_neg hc34] at h
                                                            by_cases hc35 : opcode &&& 0o300 = 0o300
                                                            · rw [if_pos hc35] at h
                                                              by_cases hc36 : opcode &&& 0o007 = 0o000
                                                              · rw [if_pos hc36] at h
                                                                rw [exec_ret_cc_flags h]
                                                                exact hs
                                                              · rw [if_neg hc36] at h
                                                                by_cases hc37 : opcode &&& 0o007 = 0o001
                                                                · rw [if_pos hc37] at h
                                                                  exact exec_pop_lownib hs h
                                                                · rw [if_neg hc37] at h
                                                                  by_cases hc38 : opcode &&& 0o007 = 0o002
                                                                  · rw [if_pos hc38] at h
                                                                    by_cases hc39 : opcode &&& 0o070 ≥ 0o040
                                                                    · rw [if_pos hc39] at h
                                                                      rw [exec_ldh_c_a16_flags h]
                                                                      exact hs
                                                                    · rw [if_neg hc39] at h
                                                                      rw [exec_jp_cc_flags h]
                                                                      exact hs
                                                                  · rw [if_neg hc38] at h
                                                                    by_cases hc40 : opcode &&& 0o007 = 0o004
                                                                    · rw [if_pos hc40] at h
                                                                      rw [exec_call_cc_flags h]
                                                                      exact hs
                                                                    · rw [if_neg hc40] at h
                                                                      by_cases hc41 : opcode &&& 0o007 = 0o005
                                                                      · rw [if_pos hc41] at h
                                                                        rw [exec_push_flags h]
                                                                        exact hs
                                                                      · rw [if_neg hc41] at h
                                                                        by_cases hc42 : opcode &&& 0o007 = 0o006
                                                                        · rw [if_pos hc42] at h
                                                                          exact exec_alu_imm_lownib hs h
                                                                        · rw [if_neg hc42] at h
                                                                          by_cases hc43 : opcode &&& 0o007 = 0o007
                                                                          · rw [if_pos hc43] at h
                                                                            rw [exec_rst_flags h]
                                                                            exact hs
                                                                          · rw [if_neg hc43] at h
                                                                            exact Option.noConfusion h
                                                            · rw [if_neg hc35] at h
                                                              exact Option.noConfusion h

set_option maxHeartbeats 2000000 in
theorem handle_interrupt_flags {s : GBConsole} {t : GBConsole} {n : Nat}
    (h : s.handle_interrupt = some (t, n)) : t.flags = s.flags := by
  unfold GBConsole.handle_interrupt at h
  by_cases hh : s.is_halted = true ∧ s.interrupt_flag &&& 31 > 0
  all_goals first | rw [if_pos hh] at h | rw [if_neg hh] at h
  all_goals simp only [] at h
  all_goals by_cases b1 : s.interrupt_enable &&& 1 > 0 ∧ s.interrupt_flag &&& 1 > 0
  all_goals first | rw [if_pos b1] at h | rw [if_neg b1] at h
  all_goals by_cases b2 : s.interrupt_enable &&& 2 > 0 ∧ s.interrupt_flag &&& 2 > 0
  all_goals first | rw [if_pos b2] at h | rw [if_neg b2] at h | skip
  all_goals by_cases b4 : s.interrupt_enable &&& 4 > 0 ∧ s.interrupt_flag &&& 4 > 0
  all_goals first | rw [if_pos b4] at h | rw [if_neg b4] at h | skip
  all_goals by_cases b8 : s.interrupt_enable &&& 8 > 0 ∧ s.interrupt_flag &&& 8 > 0
  all_goals first | rw [if_pos b8] at h | rw [if_neg b8] at h | skip
  all_goals by_cases b16 : s.interrupt_enable &&& 16 > 0 ∧ s.interrupt_flag &&& 16 > 0
  all_goals first | rw [if_pos b16] at h | rw [if_neg b16] at h | skip
  all_goals split at h
  all_goals try simp only [Nat.reduceEqDiff, reduceIte] at h
  all_goals try simp only [] at h
  all_goals
    first
    | (first
        | rw [optionBindB_eq_some] at h
        | rw [optionBind_eq_some] at h
       obtain ⟨s1, hw, h⟩ := h
       simp only [Option.some.injEq, Prod.mk.injEq] at h
       obtain ⟨h, _⟩ := h
       subst h
       rw [write_16_flags hw])
    | (simp only [Option.some.injEq, Prod.mk.injEq] at h
       obtain ⟨h, _⟩ := h
       subst h
       rfl)
    | exact Option.noConfusion h

/-! ## Per-claim theorems -/

theorem update_timer_wrap (s : GBConsole)
    (hov : s.timer_overflowed = false)
    (hen : s.timer_control &&& 0b100 > 0)
    (hcnt : s.timer_counter = 255)
    (hhit : wrap16 (s.timer_divider + 1) &&&
        (if s.timer_control &&& 0b11 = 0 then 0xFF
         else if s.timer_control &&& 0b11 = 1 then 0x04
         else if s.timer_control &&& 0b11 = 2 then 0x0F
         else 0x3F) = 0) :
    s.update_timer = {s with timer_divider := wrap16 (s.timer_divider + 1),
                             timer_counter := 0, timer_overflowed := true} := by
  unfold GBConsole.update_timer
  rw [hov]
  simp only [Bool.false_eq_true, if_false]
  rw [if_pos hen, if_pos hhit, hcnt]
  simp only [show add8 255 1 = 0 from rfl, if_pos rfl]
  rw [if_pos trivial]

theorem update_timer_reload (s : GBConsole) (h : s.timer_overflowed = true) :
    (s.update_timer).interrupt_flag = s.interrupt_flag ||| 0b100 ∧
    ((s.update_timer).timer_counter = s.timer_modulo ∨
     (s.update_timer).timer_counter = add8 s.timer_modulo 1) := by
  unfold GBConsole.update_timer
  rw [h]
  simp only [if_true]
  constructor
  · repeat first | rfl | split
  · repeat first | (left; rfl) | (right; rfl) | split

/-- C4 (amended): when no overflow is already pending, the call during which the
enabled timer counter wraps 0xFF -> 0x00 leaves the counter at 0, requests no
interrupt, and only latches the overflow; the immediately following call reloads
the counter from the modulo register (possibly ticking it once more) and sets
the timer bit of the interrupt-flag register. -/
theorem spec_c4_timer_overflow_deferred (s : GBConsole)
    (hov : s.timer_overflowed = false)
    (hen : s.timer_control &&& 0b100 > 0)
    (hcnt : s.timer_counter = 255)
    (hhit : wrap16 (s.timer_divider + 1) &&&
        (if s.timer_control &&& 0b11 = 0 then 0xFF
         else if s.timer_control &&& 0b11 = 1 then 0x04
         else if s.timer_control &&& 0b11 = 2 then 0x0F
         else 0x3F) = 0) :
    (s.update_timer).timer_counter = 0 ∧
    (s.update_timer).timer_overflowed = true ∧
    (s.update_timer).interrupt_flag = s.interrupt_flag ∧
    (s.update_timer.update_timer).interrupt_flag = s.interrupt_flag ||| 0b100 ∧
    (s.update_timer.update_timer.timer_counter = s.timer_modulo ∨
     s.update_timer.update_timer.timer_counter = add8 s.timer_modulo 1) := by
  rw [update_timer_wrap s hov hen hcnt hhit]
  refine ⟨rfl, rfl, rfl, ?_, ?_⟩
  · exact (update_timer_reload _ rfl).1
  · exact (update_timer_reload _ rfl).2

theorem spec_c4_timer_overflow_deferred_witness :
    (tA.update_timer).timer_counter = 0 ∧
    (tA.update_timer).timer_overflowed = true ∧
    (tA.update_timer).interrupt_flag = tA.interrupt_flag ∧
    (tA.update_timer.update_timer).interrupt_flag = tA.interrupt_flag ||| 0b100 ∧
    (tA.update_timer.update_timer.timer_counter = tA.timer_modulo ∨
     tA.update_timer.update_timer.timer_counter = add8 tA.timer_modulo 1) :=
  spec_c4_timer_overflow_deferred tA (by decide) (by decide) (by decide) (by decide)

/-- C9 (amended): read_16 and write_16 refuse exactly the address 0xFFFF at the
top of the bus; below it, read_16 is the little-endian combination of the two
byte reads whenever those succeed (a byte read itself may abort, as the
counterexample records). -/
theorem spec_c9_word_access_boundary :
    (∀ (s : GBConsole) (v : Nat), s.read_16 0xFFFF = none ∧ s.write_16 0xFFFF v = none) ∧
    (∀ (s : GBConsole) (a lsb msb : Nat), a < 0xFFFF →
      s.read a = some lsb → s.read (a + 1) = some msb →
      s.read_16 a = some (lsb + 256 * msb)) := by
  constructor
  · intro s v
    constructor
    · unfold GBConsole.read_16
      simp
    · unfold GBConsole.write_16
      simp
  · intro s a lsb msb ha h1 h2
    unfold GBConsole.read_16
    rw [if_neg (by omega)]
    rw [h1]
    simp only [optionBindB_some, optionBind_some]
    rw [h2]
    rfl

theorem spec_c9_word_access_boundary_witness :
    (cXor.read_16 0xFFFF = none ∧ cXor.write_16 0xFFFF 7 = none) ∧
    cXor.read_16 0xC000 = some (0 + 256 * 0) :=
  ⟨(spec_c9_word_access_boundary.1 cXor 7),
   spec_c9_word_access_boundary.2 cXor 0xC000 0 0 (by decide)
     (by simp [cXor, GBConsole.read, GBConsole.new, wrap8])
     (by simp [cXor, GBConsole.read, GBConsole.new, wrap8])⟩

/-- C9 counterexample: address 0xA000 is below 0xFFFF, yet read_16 aborts on a
ROM-only cartridge, because the underlying byte read panics in the mapper. -/
theorem spec_c9_sub_boundary_abort :
    cXor.read_16 0xA000 = none := by
  have h : cXor.read 0xA000 = none := by
    simp [cXor, GBConsole.read, GBConsole.new, Mapper.read, NoMBC.read]
  unfold GBConsole.read_16
  rw [if_neg (by omega), h]
  rfl

theorem read_wram {s : GBConsole} {a : Nat} (h1 : 0xC000 ≤ a) (h2 : a < 0xD000) :
    s.read a = some (wrap8 (s.working_ram (a - 0xC000))) := by
  unfold GBConsole.read
  rw [dif_neg (by omega), dif_neg (by omega), dif_neg (by omega), dif_pos (by omega)]

theorem read_aux {s : GBConsole} {a : Nat} (h1 : 0xD000 ≤ a) (h2 : a < 0xE000) :
    s.read a = (s.aux_working_ram.get? s.aux_working_ram_index).map
      (fun bank => wrap8 (bank (a - 0xD000))) := by
  unfold GBConsole.read
  rw [dif_neg (by omega), dif_neg (by omega), dif_neg (by omega), dif_neg (by omega),
      dif_pos (by omega)]

theorem read_echo {s : GBConsole} {a : Nat} (h1 : 0xE000 ≤ a) (h2 : a < 0xFE00) :
    s.read a = s.read (a - 0x2000) := by
  conv_lhs => rw [GBConsole.read]
  rw [dif_neg (by omega), dif_neg (by omega), dif_neg (by omega), dif_neg (by omega),
      dif_neg (by omega), dif_pos (by omega)]

theorem write_wram {s : GBConsole} {a v : Nat} (h1 : 0xC000 ≤ a) (h2 : a < 0xD000) :
    s.write a v = some {s with working_ram := updf s.working_ram (a - 0xC000) v} := by
  unfold GBConsole.write
  rw [dif_neg (by omega), dif_neg (by omega), dif_neg (by omega), dif_pos (by omega)]

theorem write_aux {s : GBConsole} {a v : Nat} (h1 : 0xD000 ≤ a) (h2 : a < 0xE000) :
    s.write a v =
      match s.aux_working_ram.get? s.aux_working_ram_index with
      | some bank =>
        some {s with aux_working_ram :=
          s.aux_working_ram.set s.aux_working_ram_index (updf bank (a - 0xD000) v)}
      | none => none := by
  unfold GBConsole.write
  rw [dif_neg (by omega), dif_neg (by omega), dif_neg (by omega), dif_neg (by omega),
      dif_pos (by omega)]
  try rfl

theorem write_echo {s : GBConsole} {a v : Nat} (h1 : 0xE000 ≤ a) (h2 : a < 0xFE00) :
    s.write a v = s.write (a - 0x2000) v := by
  conv_lhs => rw [GBConsole.write]
  rw [dif_neg (by omega), dif_neg (by omega), dif_neg (by omega), dif_neg (by omega),
      dif_neg (by omega), dif_pos (by omega)]

theorem c6_core {s s' : GBConsole} {a v : Nat}
    (ha : 0xC000 ≤ a) (hb : a ≤ 0xDDFF) (hv : v < 256)
    (hw : s.write a v = some s') :
    s'.read a = some v ∧ s'.read (a + 0x2000) = some v := by
  have hsub : a + 0x2000 - 0x2000 = a := by omega
  have hecho : s'.read (a + 0x2000) = s'.read a := by
    rw [read_echo (by omega) (by omega), hsub]
  rw [hecho]
  rcases Nat.lt_or_ge a 0xD000 with hr | hr
  · rw [write_wram ha hr] at hw
    have hs : ({s with working_ram := updf s.working_ram (a - 0xC000) v} : GBConsole) = s' := by
      injection hw
    subst hs
    rw [read_wram ha hr]
    simp only [updf, wrap8]
    rw [if_pos trivial, Nat.mod_eq_of_lt hv]
    exact ⟨rfl, rfl⟩
  · rw [write_aux hr (by omega)] at hw
    rcases hg : s.aux_working_ram.get? s.aux_working_ram_index with _ | bank
    · rw [hg] at hw
      exact Option.noConfusion hw
    · rw [hg] at hw
      have hs : ({s with aux_working_ram :=
          s.aux_working_ram.set s.aux_working_ram_index (updf bank (a - 0xD000) v)} : GBConsole) = s' := by
        injection hw
      subst hs
      rw [read_aux hr (by omega)]
      simp only []
      have hlen : s.aux_working_ram_index < s.aux_working_ram.length := by
        rcases List.get?_eq_some.mp hg with ⟨hl, _⟩
        exact hl
      rw [List.get?_set_eq_of_lt _ hlen]
      simp only [Option.map_some', updf, wrap8]
      rw [if_pos trivial, Nat.mod_eq_of_lt hv]
      exact ⟨rfl, rfl⟩

/-- C6: a byte written anywhere in working RAM [0xC000,0xDDFF] is read back both
at the written address and at its echo 0x2000 higher, and a byte written through
the echo region lands in the same cell, readable at both addresses. -/
theorem spec_c6_echo_ram {s s₁ s₂ : GBConsole} {a v : Nat}
    (ha : 0xC000 ≤ a) (hb : a ≤ 0xDDFF) (hv : v < 256)
    (h1 : s.write a v = some s₁) (h2 : s.write (a + 0x2000) v = some s₂) :
    (s₁.read a = some v ∧ s₁.read (a + 0x2000) = some v) ∧
    (s₂.read (a + 0x2000) = some v ∧ s₂.read a = some v) := by
  have hsub : a + 0x2000 - 0x2000 = a := by omega
  have h2' : s.write a v = some s₂ := by
    rw [write_echo (by omega) (by omega), hsub] at h2
    exact h2
  have r1 := c6_core ha hb hv h1
  have r2 := c6_core ha hb hv h2'
  exact ⟨⟨r1.1, r1.2⟩, ⟨r2.2, r2.1⟩⟩

theorem spec_c6_echo_ram_witness :
    (cW1.read 0xC123 = some 77 ∧ cW1.read (0xC123 + 0x2000) = some 77) ∧
    (cW1.read (0xC123 + 0x2000) = some 77 ∧ cW1.read 0xC123 = some 77) :=
  spec_c6_echo_ram (by decide) (by decide) (by decide)
    (write_wram (by decide) (by decide))
    (by rw [write_echo (by decide) (by decide)]
        exact write_wram (by decide) (by decide))

theorem xor_step : cXor.execute_instruction = some (cXorA, 4) := by
  have hread : cXor.read cXor.program_counter = some 0xAF := by
    simp [cXor, GBConsole.read, GBConsole.new, Mapper.read, NoMBC.read, romXorHalt, wrap8]
  unfold GBConsole.execute_instruction
  rw [hread]
  simp only [optionBindB_some, optionBind_some]
  rfl

theorem halt_step : cXorA.execute_instruction = some (cXorB, 4) := by
  have hread : cXorA.read cXorA.program_counter = some 0x76 := by
    simp [cXorA, cXor, GBConsole.read, GBConsole.new, Mapper.read, NoMBC.read, romXorHalt,
      wrap8]
  unfold GBConsole.execute_instruction
  rw [hread]
  simp only [optionBindB_some, optionBind_some]
  rfl

/-- C5 (amended): from the fresh console at the XOR A / HALT entry point, the
first execute_instruction call clears the accumulator, leaves exactly the zero
flag set, advances the program counter by one and reports 4 cycles; the next
call executes HALT but, because the boot interrupt-flag register is 0xE1 while
the master enable is Disabled, the halt is skipped: the CPU does not enter the
halted state and the program counter simply advances. -/
theorem spec_c5_xor_then_halt :
    cXor.execute_instruction = some (cXorA, 4) ∧
    cXorA.a = 0 ∧ cXorA.flags = 0b10000000 ∧
    cXorA.program_counter = cXor.program_counter + 1 ∧
    cXorA.execute_instruction = some (cXorB, 4) ∧
    cXorB.is_halted = false ∧ cXorB.program_counter = 0x102 :=
  ⟨xor_step, rfl, rfl, rfl, halt_step, rfl, rfl⟩

/-- C5 counterexample: the claimed transition into the halted state does not
happen on the fresh console; after the HALT opcode the CPU is still running. -/
theorem spec_c5_halt_skipped :
    cXorA.execute_instruction = some (cXorB, 4) ∧ cXorB.is_halted = false ∧
    cXor.interrupt_flag &&& 0b00011111 ≠ 0 ∧
    cXor.interrupt_master_enable_flag ≠ IMEState.Enabled :=
  ⟨halt_step, rfl, by decide, by decide⟩

theorem write_hram {s : GBConsole} {a v : Nat} (h1 : 0xFF80 ≤ a) (h2 : a < 0xFFFF) :
    s.write a v = some {s with high_ram := updf s.high_ram (a - 0xFF80) v} := by
  unfold GBConsole.write
  rw [dif_neg (by omega), dif_neg (by omega), dif_neg (by omega), dif_neg (by omega),
      dif_neg (by omega), dif_neg (by omega), dif_neg (by omega), dif_neg (by omega),
      dif_neg (by omega), dif_pos (by omega)]

theorem call_push : ({cCall with stack_pointer := sub16 cCall.stack_pointer 2}).write_16
    (sub16 cCall.stack_pointer 2) (wrap16 (cCall.program_counter + 3)) = some cCallP := by
  have e : sub16 cCall.stack_pointer 2 = 0xFFFC := by rfl
  rw [e]
  unfold GBConsole.write_16
  rw [if_neg (by decide)]
  rw [write_hram (by decide) (by decide)]
  simp only [optionBindB_some, optionBind_some]
  rw [write_hram (by decide) (by decide)]
  rfl

theorem call_target : cCallP.read_16 (wrap16 (cCallP.program_counter + 1)) = some 0 := by
  have e : wrap16 (cCallP.program_counter + 1) = 0x101 := by rfl
  rw [e]
  unfold GBConsole.read_16
  rw [if_neg (by decide)]
  have r1 : cCallP.read 0x101 = some 0 := by
    simp [cCallP, cCall, GBConsole.read, GBConsole.new, Mapper.read, NoMBC.read, romCall, wrap8]
  have r2 : cCallP.read 0x102 = some 0 := by
    simp [cCallP, cCall, GBConsole.read, GBConsole.new, Mapper.read, NoMBC.read, romCall, wrap8]
  rw [r1]
  simp only [optionBindB_some, optionBind_some]
  rw [r2]
  rfl

/-- C1 counterexample: an unconditional CALL a16 on a fresh console reports 6
cycles, not the documented 24: the source sets cycle_count = 6 in the CALL arm. -/
theorem spec_c1_call_reports_6 :
    (cCall.execute_instruction).map Prod.snd = some 6 := by
  have h1 : cCall.read cCall.program_counter = some 0xCD := by
    simp [cCall, GBConsole.read, GBConsole.new, Mapper.read, NoMBC.read, romCall, wrap8]
  unfold GBConsole.execute_instruction
  rw [h1]
  simp only [optionBindB_some, optionBind_some]
  simp only [Nat.reduceEqDiff, reduceIte]
  unfold GBConsole.exec_call_a16
  simp only []
  rw [call_push]
  simp only [optionBindB_some, optionBind_some]
  rw [call_target]
  rfl

/-- C2 (amended): with the master flag Enabled and a pending enabled source,
handle_interrupt services the lowest-numbered source - pushing the program
counter (provided that 16-bit push succeeds; a stack pointer that decrements to
0xFFFF makes the push abort instead), jumping to the fixed vector, clearing that
interrupt-flag bit, disabling the master flag and returning 20 cycles; in every
other case it returns 0 and changes at most the halted latch. -/
theorem spec_c2_interrupt_dispatch :
    (∀ s : GBConsole, s.interrupt_master_enable_flag ≠ IMEState.Enabled →
      s.handle_interrupt =
        some (if s.is_halted ∧ s.interrupt_flag &&& 0b00011111 > 0
              then {s with is_halted := false} else s, 0)) ∧
    (∀ s : GBConsole, s.interrupt_master_enable_flag = IMEState.Enabled →
      ¬(s.interrupt_enable &&& 1 > 0 ∧ s.interrupt_flag &&& 1 > 0) →
      ¬(s.interrupt_enable &&& 2 > 0 ∧ s.interrupt_flag &&& 2 > 0) →
      ¬(s.interrupt_enable &&& 4 > 0 ∧ s.interrupt_flag &&& 4 > 0) →
      ¬(s.interrupt_enable &&& 8 > 0 ∧ s.interrupt_flag &&& 8 > 0) →
      ¬(s.interrupt_enable &&& 16 > 0 ∧ s.interrupt_flag &&& 16 > 0) →
      s.handle_interrupt =
        some (if s.is_halted ∧ s.interrupt_flag &&& 0b00011111 > 0
              then {s with is_halted := false} else s, 0)) ∧
    (∀ s s₁ : GBConsole, s.interrupt_master_enable_flag = IMEState.Enabled →
      (s.interrupt_enable &&& 1 > 0 ∧ s.interrupt_flag &&& 1 > 0) →
      ({(if s.is_halted ∧ s.interrupt_flag &&& 0b00011111 > 0
          then {s with is_halted := false} else s) with
        stack_pointer := sub16 s.stack_pointer 2}).write_16
          (sub16 s.stack_pointer 2) s.program_counter = some s₁ →
      s.handle_interrupt = some ({s₁ with
          program_counter := 0x40
          interrupt_master_enable_flag := IMEState.Disabled
          interrupt_flag := s₁.interrupt_flag &&& (0xFF ^^^ 1)}, 20)) ∧
    (∀ s s₁ : GBConsole, s.interrupt_master_enable_flag = IMEState.Enabled →
      ¬(s.interrupt_enable &&& 1 > 0 ∧ s.interrupt_flag &&& 1 > 0) →
      (s.interrupt_enable &&& 2 > 0 ∧ s.interrupt_flag &&& 2 > 0) →
      ({(if s.is_halted ∧ s.interrupt_flag &&& 0b00011111 > 0
          then {s with is_halted := false} else s) with
        stack_pointer := sub16 s.stack_pointer 2}).write_16
          (sub16 s.stack_pointer 2) s.program_counter = some s₁ →
      s.handle_interrupt = some ({s₁ with
          program_counter := 0x48
          interrupt_master_enable_flag := IMEState.Disabled
          interrupt_flag := s₁.interrupt_flag &&& (0xFF ^^^ 2)}, 20)) ∧
    (∀ s s₁ : GBConsole, s.interrupt_master_enable_flag = IMEState.Enabled →
      ¬(s.interrupt_enable &&& 1 > 0 ∧ s.interrupt_flag &&& 1 > 0) →
      ¬(s.interrupt_enable &&& 2 > 0 ∧ s.interrupt_flag &&& 2 > 0) →
      (s.interrupt_enable &&& 4 > 0 ∧ s.interrupt_flag &&& 4 > 0) →
      ({(if s.is_halted ∧ s.interrupt_flag &&& 0b00011111 > 0
          then {s with is_halted := false} else s) with
        stack_pointer := sub16 s.stack_pointer 2}).write_16
          (sub16 s.stack_pointer 2) s.program_counter = some s₁ →
      s.handle_interrupt = some ({s₁ with
          program_counter := 0x50
          interrupt_master_enable_flag := IMEState.Disabled
          interrupt_flag := s₁.interrupt_flag &&& (0xFF ^^^ 4)}, 20)) ∧
    (∀ s s₁ : GBConsole, s.interrupt_master_enable_flag = IMEState.Enabled →
      ¬(s.interrupt_enable &&& 1 > 0 ∧ s.interrupt_flag &&& 1 > 0) →
      ¬(s.interrupt_enable &&& 2 > 0 ∧ s.interrupt_flag &&& 2 > 0) →
      ¬(s.interrupt_enable &&& 4 > 0 ∧ s.interrupt_flag &&& 4 > 0) →
      (s.interrupt_enable &&& 8 > 0 ∧ s.interrupt_flag &&& 8 > 0) →
      ({(if s.is_halted ∧ s.interrupt_flag &&& 0b00011111 > 0
          then {s with is_halted := false} else s) with
        stack_pointer := sub16 s.stack_pointer 2}).write_16
          (sub16 s.stack_pointer 2) s.program_counter = some s₁ →
      s.handle_interrupt = some ({s₁ with
          program_counter := 0x58
          interrupt_master_enable_flag := IMEState.Disabled
          interrupt_flag := s₁.interrupt_flag &&& (0xFF ^^^ 8)}, 20)) ∧
    (∀ s s₁ : GBConsole, s.interrupt_master_enable_flag = IMEState.Enabled →
      ¬(s.interrupt_enable &&& 1 > 0 ∧ s.interrupt_flag &&& 1 > 0) →
      ¬(s.interrupt_enable &&& 2 > 0 ∧ s.interrupt_flag &&& 2 > 0) →
      ¬(s.interrupt_enable &&& 4 > 0 ∧ s.interrupt_flag &&& 4 > 0) →
      ¬(s.interrupt_enable &&& 8 > 0 ∧ s.interrupt_flag &&& 8 > 0) →
      (s.interrupt_enable &&& 16 > 0 ∧ s.interrupt_flag &&& 16 > 0) →
      ({(if s.is_halted ∧ s.interrupt_flag &&& 0b00011111 > 0
          then {s with is_halted := false} else s) with
        stack_pointer := sub16 s.stack_pointer 2}).write_16
          (sub16 s.stack_pointer 2) s.program_counter = some s₁ →
      s.handle_interrupt = some ({s₁ with
          program_counter := 0x60
          interrupt_master_enable_flag := IMEState.Disabled
          interrupt_flag := s₁.interrupt_flag &&& (0xFF ^^^ 16)}, 20)) := by
  refine ⟨?_, ?_, ?_, ?_, ?_, ?_, ?_⟩
  · intro s hime
    unfold GBConsole.handle_interrupt
    by_cases hh : s.is_halted = true ∧ s.interrupt_flag &&& 0b00011111 > 0
    all_goals first | rw [if_pos hh] | rw [if_neg hh]
    all_goals try simp only []
    all_goals rw [if_neg hime]
  · intro s hime hb1 hb2 hb4 hb8 hb16
    unfold GBConsole.handle_interrupt
    by_cases hh : s.is_halted = true ∧ s.interrupt_flag &&& 0b00011111 > 0
    all_goals first | rw [if_pos hh] | rw [if_neg hh]
    all_goals try simp only []
    all_goals rw [if_pos hime, if_neg hb1, if_neg hb2, if_neg hb4, if_neg hb8, if_neg hb16]
    all_goals simp only [Nat.reduceEqDiff, reduceIte]
  · intro s s₁ hime hb hw
    unfold GBConsole.handle_interrupt
    by_cases hh : s.is_halted = true ∧ s.interrupt_flag &&& 0b00011111 > 0
    all_goals first | rw [if_pos hh] at hw ⊢ | rw [if_neg hh] at hw ⊢
    all_goals try simp only [] at hw ⊢
    all_goals rw [if_pos hime, if_pos hb]
    all_goals simp only [Nat.reduceEqDiff, reduceIte]
    all_goals rw [hw]
    all_goals rfl
  · intro s s₁ hime hb1 hb hw
    unfold GBConsole.handle_interrupt
    by_cases hh : s.is_halted = true ∧ s.interrupt_flag &&& 0b00011111 > 0
    all_goals first | rw [if_pos hh] at hw ⊢ | rw [if_neg hh] at hw ⊢
    all_goals try simp only [] at hw ⊢
    all_goals rw [if_pos hime, if_neg hb1, if_pos hb]
    all_goals simp only [Nat.reduceEqDiff, reduceIte]
    all_goals rw [hw]
    all_goals rfl
  · intro s s₁ hime hb1 hb2 hb hw
    unfold GBConsole.handle_interrupt
    by_cases hh : s.is_halted = true ∧ s.interrupt_flag &&& 0b00011111 > 0
    all_goals first | rw [if_pos hh] at hw ⊢ | rw [if_neg hh] at hw ⊢
    all_goals try simp only [] at hw ⊢
    all_goals rw [if_pos hime, if_neg hb1, if_neg hb2, if_pos hb]
    all_goals simp only [Nat.reduceEqDiff, reduceIte]
    all_goals rw [hw]
    all_goals rfl
  · intro s s₁ hime hb1 hb2 hb4 hb hw
    unfold GBConsole.handle_interrupt
    by_cases hh : s.is_halted = true ∧ s.interrupt_flag &&& 0b00011111 > 0
    all_goals first | rw [if_pos hh] at hw ⊢ | rw [if_neg hh] at hw ⊢
    all_goals try simp only [] at hw ⊢
    all_goals rw [if_pos hime, if_neg hb1, if_neg hb2, if_neg hb4, if_pos hb]
    all_goals simp only [Nat.reduceEqDiff, reduceIte]
    all_goals rw [hw]
    all_goals rfl
  · intro s s₁ hime hb1 hb2 hb4 hb8 hb hw
    unfold GBConsole.handle_interrupt
    by_cases hh : s.is_halted = true ∧ s.interrupt_flag &&& 0b00011111 > 0
    all_goals first | rw [if_pos hh] at hw ⊢ | rw [if_neg hh] at hw ⊢
    all_goals try simp only [] at hw ⊢
    all_goals rw [if_pos hime, if_neg hb1, if_neg hb2, if_neg hb4, if_neg hb8, if_pos hb]
    all_goals simp only [Nat.reduceEqDiff, reduceIte]
    all_goals rw [hw]
    all_goals rfl

/-- C2 counterexample: master flag Enabled and V-blank pending (bit 0 set in
both registers), yet handle_interrupt aborts instead of servicing: the stack
pointer 0x0001 decrements to 0xFFFF and the 16-bit push panics there. -/
theorem spec_c2_push_abort :
    iEx.interrupt_master_enable_flag = IMEState.Enabled ∧
    iEx.interrupt_enable &&& 1 > 0 ∧ iEx.interrupt_flag &&& 1 > 0 ∧
    iEx.handle_interrupt = none := by
  refine ⟨rfl, by decide, by decide, ?_⟩
  unfold GBConsole.handle_interrupt
  rw [if_neg (show ¬(iEx.is_halted = true ∧ iEx.interrupt_flag &&& 0b00011111 > 0) by decide)]
  rw [if_pos (show iEx.interrupt_master_enable_flag = IMEState.Enabled from rfl)]
  rw [if_pos (show iEx.interrupt_enable &&& 1 > 0 ∧ iEx.interrupt_flag &&& 1 > 0 by decide)]
  simp only [Nat.reduceEqDiff, reduceIte]
  have hw : sub16 iEx.stack_pointer 2 = 0xFFFF := rfl
  rw [hw]
  unfold GBConsole.write_16
  rw [if_pos rfl]
  rfl

theorem iOk_push : ({(if iOk.is_halted ∧ iOk.interrupt_flag &&& 0b00011111 > 0
      then {iOk with is_halted := false} else iOk) with
    stack_pointer := sub16 iOk.stack_pointer 2}).write_16
      (sub16 iOk.stack_pointer 2) iOk.program_counter = some iOkP := by
  rw [if_neg (by decide)]
  have e : sub16 iOk.stack_pointer 2 = 0xFFFC := rfl
  rw [e]
  unfold GBConsole.write_16
  rw [if_neg (by decide)]
  rw [write_hram (by decide) (by decide)]
  simp only [optionBindB_some, optionBind_some]
  rw [write_hram (by decide) (by decide)]
  rfl

theorem spec_c2_interrupt_dispatch_witness :
    iOk.handle_interrupt = some ({iOkP with
      program_counter := 0x50
      interrupt_master_enable_flag := IMEState.Disabled
      interrupt_flag := iOkP.interrupt_flag &&& (0xFF ^^^ 4)}, 20) :=
  spec_c2_interrupt_dispatch.2.2.2.2.1 iOk iOkP rfl (by decide) (by decide) (by decide) iOk_push

/-- C7: the low nibble of the flags register is zero on a freshly constructed
console and is preserved by every successful execute_instruction call (prefixed
instructions and POP AF included) and by every successful handle_interrupt
call. -/
theorem spec_c7_flags_low_nibble :
    (∀ m : Mapper, (GBConsole.new m).flags % 16 = 0) ∧
    (∀ (s t : GBConsole) (n : Nat), s.flags % 16 = 0 →
      s.execute_instruction = some (t, n) → t.flags % 16 = 0) ∧
    (∀ (s t : GBConsole) (n : Nat), s.flags % 16 = 0 →
      s.handle_interrupt = some (t, n) → t.flags % 16 = 0) :=
  ⟨fun _ => by
    show (128 : Nat) % 16 = 0
    rfl,
   fun _ _ _ hs h => execute_lownib hs h,
   fun _ _ _ hs h => by rw [handle_interrupt_flags h]; exact hs⟩

theorem spec_c7_flags_low_nibble_witness : cXorA.flags % 16 = 0 :=
  spec_c7_flags_low_nibble.2.1 cXor cXorA 4 (by decide) xor_step

/-- C3: writing 0 to the ROM-bank-select range selects bank 0, not bank 1: the
source's bank-0-to-1 aliasing write is dead because the index is unconditionally
overwritten with the raw selector afterwards.  The modulo-wrap half behaves as
documented. -/
theorem spec_c3_mbc1_bank_zero :
    (mb2.write 0x2000 0).map MBC1.aux_rom_bank_index = some 0 ∧
    (mb2.write 0x2000 5).map MBC1.aux_rom_bank_index = some 1 := by
  constructor <;> rfl

/-- C4 counterexample: with an overflow already pending (timer_overflowed set),
the very call during which TIMA wraps 0xFF -> 0x00 does reload the counter and
does request the timer interrupt, against the claim's same-call prohibition. -/
theorem spec_c4_pending_overflow_counterexample :
    tB.timer_counter = 255 ∧ (tB.update_timer).timer_counter = 0 ∧
    (tB.update_timer).timer_overflowed = true ∧
    (tB.update_timer).interrupt_flag &&& 4 = 4 := by
  refine ⟨rfl, rfl, rfl, rfl⟩

/-- C8: CPU-bus writes to video RAM during mode 3, and to OAM during modes 2 or
3, leave the PPU entirely unchanged and surface no error. -/
theorem spec_c8_ppu_lockout (p : PPU) (a v : Nat)
    (h : (0x8000 ≤ a ∧ a ≤ 0x9FFF ∧ p.get_mode = 3) ∨
         (0xFE00 ≤ a ∧ a ≤ 0xFE9F ∧ (p.get_mode = 2 ∨ p.get_mode = 3))) :
    p.write a v = some p := by
  unfold PPU.get_mode at h
  unfold PPU.write
  rcases h with ⟨h1, h2, h3⟩ | ⟨h1, h2, h3⟩
  · rw [if_pos ⟨h1, h2⟩, if_neg (by simp [h3])]
  · rw [if_neg (by omega), if_pos ⟨h1, h2⟩, if_neg (by rcases h3 with h3 | h3 <;> simp [h3])]

theorem spec_c8_ppu_lockout_witness :
    pMode3.write 0x8123 7 = some pMode3 ∧ pMode2.write 0xFE40 9 = some pMode2 :=
  ⟨spec_c8_ppu_lockout pMode3 0x8123 7 (Or.inl ⟨by decide, by decide, by decide⟩),
   spec_c8_ppu_lockout pMode2 0xFE40 9 (Or.inr ⟨by decide, by decide, Or.inl (by decide)⟩)⟩

/-- C10: with the RAM-enable latch off, or with no RAM banks at all, every
cartridge-RAM read returns the sentinel 0xFF and every cartridge-RAM write
returns the mapper unchanged. -/
theorem spec_c10_mbc1_disabled_ram (m : MBC1) (a v : Nat)
    (h1 : 0xA000 ≤ a) (h2 : a ≤ 0xBFFF)
    (h : m.ram_enabled = false ∨ m.ram_banks = none) :
    m.read a = some 0xFF ∧ m.write a v = some m := by
  constructor
  · unfold MBC1.read
    rw [if_neg (by omega), if_neg (by omega), if_pos ⟨h1, h2⟩]
    rcases h with h | h
    · rw [h]
      simp
    · rw [h]
      cases m.ram_enabled <;> simp
  · unfold MBC1.write
    rw [if_neg (by omega), if_neg (by omega), if_neg (by omega), if_neg (by omega),
        if_pos ⟨h1, h2⟩]
    rcases h with h | h
    · rw [h]
      simp
    · rw [h]
      cases m.ram_enabled <;> simp

theorem spec_c10_mbc1_disabled_ram_witness :
    mb2.read 0xA000 = some 0xFF ∧ mb2.write 0xA000 3 = some mb2 :=
  spec_c10_mbc1_disabled_ram mb2 0xA000 3 (by decide) (by decide) (Or.inl (by decide))
